import Mathlib

/-!
# GameYob cartridge mappers (platform/common/mbc.cpp)

A shallow embedding of the memory-bank-controller read and write handlers of
`platform/common/mbc.cpp`, and theorems about them.

Conventions of the embedding.

* `u16` addresses and `u8` values are natural numbers; theorems state the
  ranges they need (`val < 256`, an address window).  No operation of the
  handlers can leave the range of its C type (`val - 8` is guarded by
  `val > 0xf`, `HuC3Shift += 4` by `HuC3Shift <= 24`, the shifts are done on
  `int`), so no reduction modulo a power of two is needed.
* The members of the `Gameboy` object that the handlers touch are the fields of
  the structure `Gameboy`.
* A call that leaves the file is recorded in a trace of `Event`s, in program
  order.  The `Gameboy` methods that are defined elsewhere (`refreshRomBank`,
  `refreshRamBank`, `writeSram`, `latchClock`) may change the object, and what
  they do to it is a parameter `Ext` of every handler.  The platform services
  (`doRumble`, `printLog`, `file_seek`, `file_write`) act on the motor, the
  console and the save file, and are recorded only.
-/

namespace GameYob

/-- Modelled from the spec: the `mbc3` view of `gbClock` (it is
declared in gameboy.h, not in mbc.cpp): seconds, minutes, hours, the day counter and
the control byte, integers that are never negative. -/
structure Mbc3Clock where
  s : Nat
  m : Nat
  h : Nat
  d : Nat
  ctrl : Nat
deriving DecidableEq, Repr

/-- Modelled from the spec: the `huc3` view of `gbClock` (it is
declared in gameboy.h, not in mbc.cpp): minutes, days and years. -/
structure HuC3Clock where
  m : Nat
  d : Nat
  y : Nat
deriving DecidableEq, Repr

/-- The clock structure `gbClock`, with its two views kept apart (a cartridge has
one mapper, so a handler only ever uses one of them). -/
structure ClockStruct where
  mbc3 : Mbc3Clock
  huc3 : HuC3Clock
deriving DecidableEq, Repr

/-- Modelled from the spec: the members of `Gameboy` used by the handlers (the
class is declared in gameboy.h, not in mbc.cpp).  Bank numbers and counters are
integers that are never negative.  `hasRumble` is
the answer of `romFile->hasRumble()`; `memory` is the table of 4 KiB pages. -/
structure Gameboy where
  ramEnabled : Bool
  romBank : Nat
  currentRamBank : Nat
  memoryModel : Nat
  numRamBanks : Nat
  rockmanMapper : Bool
  HuC3Mode : Nat
  HuC3Value : Nat
  HuC3Shift : Nat
  gbClock : ClockStruct
  hasRumble : Bool
  rumbleStrength : Nat
  rumbleInserted : Bool
  rumbleValue : Nat
  lastRumbleValue : Nat
  autoSavingEnabled : Bool
  saveModified : Bool
  memory : Nat → Nat → Nat

/-- The calls that leave mbc.cpp, and the call of `writeClockStruct`. -/
inductive Event where
  | refreshRomBank (bank : Nat)
  | refreshRamBank (bank : Nat)
  | writeSram (addr val : Nat)
  | latchClock
  | writeClockStruct
  | fileSeek (offset : Nat)
  | fileWrite (clock : ClockStruct)
  | doRumble (value : Nat)
  | printLog (cmd : Nat)
deriving DecidableEq, Repr

/-- What the `Gameboy` methods defined outside mbc.cpp do to the object. -/
structure Ext where
  refreshRomBank : Nat → Gameboy → Gameboy
  refreshRamBank : Nat → Gameboy → Gameboy
  writeSram : Nat → Nat → Gameboy → Gameboy
  latchClock : Gameboy → Gameboy

/-- The machine a handler runs on: the object and the trace of calls so far. -/
structure Sys where
  gb : Gameboy
  trace : List Event

/-- Record a call in the trace. -/
def Sys.emit (e : Event) (s : Sys) : Sys :=
  { s with trace := s.trace ++ [e] }

/-- The call `refreshRomBank(bank)`. -/
def callRefreshRomBank (E : Ext) (bank : Nat) (s : Sys) : Sys :=
  { gb := E.refreshRomBank bank s.gb, trace := s.trace ++ [Event.refreshRomBank bank] }

/-- The call `refreshRamBank(bank)`. -/
def callRefreshRamBank (E : Ext) (bank : Nat) (s : Sys) : Sys :=
  { gb := E.refreshRamBank bank s.gb, trace := s.trace ++ [Event.refreshRamBank bank] }

/-- The call `writeSram(addr, val)`. -/
def callWriteSram (E : Ext) (addr val : Nat) (s : Sys) : Sys :=
  { gb := E.writeSram addr val s.gb, trace := s.trace ++ [Event.writeSram addr val] }

/-- The call `latchClock()`. -/
def callLatchClock (E : Ext) (s : Sys) : Sys :=
  { gb := E.latchClock s.gb, trace := s.trace ++ [Event.latchClock] }

/-- `Gameboy::m3r`. -/
def m3r (addr : Nat) (g : Gameboy) : Nat :=
  if !g.ramEnabled then 0xff
  else
    match g.currentRamBank with
    | 0x8 => g.gbClock.mbc3.s
    | 0x9 => g.gbClock.mbc3.m
    | 0xA => g.gbClock.mbc3.h
    | 0xB => g.gbClock.mbc3.d &&& 0xff
    | 0xC => g.gbClock.mbc3.ctrl
    | _ => g.memory (addr >>> 12) (addr &&& 0xfff)

/-- `Gameboy::m7r`. -/
def m7r (addr : Nat) (g : Gameboy) : Nat :=
  g.memory (addr >>> 12) (addr &&& 0xfff)

/-- `Gameboy::h3r`. -/
def h3r (addr : Nat) (g : Gameboy) : Nat :=
  match g.HuC3Mode with
  | 0xc => g.HuC3Value
  | 0xb => 1
  | 0xd => 1
  | _ => if g.ramEnabled then g.memory (addr >>> 12) (addr &&& 0xfff) else 0xff

/-- `Gameboy::m0w`. -/
def m0w (E : Ext) (addr val : Nat) (s : Sys) : Sys :=
  match addr >>> 12 with
  | 0x0 | 0x1 => s
  | 0x2 | 0x3 => s
  | 0x4 | 0x5 => s
  | 0x6 | 0x7 => s
  | 0xa | 0xb =>
    if s.gb.numRamBanks ≠ 0 then callWriteSram E (addr &&& 0x1fff) val s else s
  | _ => s

/-- The assignment `ramEnabled = ((val & 0xf) == 0xa)`. -/
def setRamEnabled (val : Nat) (s : Sys) : Sys :=
  { s with gb := { s.gb with ramEnabled := (val &&& 0xf == 0xa) } }

/-- The guarded write `if (ramEnabled && numRamBanks) writeSram(addr&0x1fff, val)`. -/
def sramWrite (E : Ext) (addr val : Nat) (s : Sys) : Sys :=
  if s.gb.ramEnabled ∧ s.gb.numRamBanks ≠ 0 then callWriteSram E (addr &&& 0x1fff) val s
  else s

/-- `Gameboy::m1w`. -/
def m1w (E : Ext) (addr val : Nat) (s : Sys) : Sys :=
  match addr >>> 12 with
  | 0x0 | 0x1 => setRamEnabled val s
  | 0x2 | 0x3 =>
    let val := val &&& 0x1f
    let newBank :=
      if s.gb.rockmanMapper then (if val > 0xf then val - 8 else val)
      else (s.gb.romBank &&& 0xe0) ||| val
    callRefreshRomBank E (if newBank ≠ 0 then newBank else 1) s
  | 0x4 | 0x5 =>
    let val := val &&& 3
    if s.gb.memoryModel = 0 then
      let newBank := (s.gb.romBank &&& 0x1F) ||| (val <<< 5)
      callRefreshRomBank E (if newBank ≠ 0 then newBank else 1) s
    else
      callRefreshRamBank E val s
  | 0x6 | 0x7 => { s with gb := { s.gb with memoryModel := val &&& 1 } }
  | 0xa | 0xb => sramWrite E addr val s
  | _ => s

/-- `Gameboy::m2w`. -/
def m2w (E : Ext) (addr val : Nat) (s : Sys) : Sys :=
  match addr >>> 12 with
  | 0x0 | 0x1 => setRamEnabled val s
  | 0x2 | 0x3 => callRefreshRomBank E (if val ≠ 0 then val else 1) s
  | 0x4 | 0x5 => s
  | 0x6 | 0x7 => s
  | 0xa | 0xb => sramWrite E addr (val &&& 0xf) s
  | _ => s

/-- `Gameboy::writeClockStruct`: the call is recorded, then the structure is
written to the save file when autosaving is on. -/
def writeClockStruct (s : Sys) : Sys :=
  let s := s.emit Event.writeClockStruct
  if s.gb.autoSavingEnabled then
    let s := s.emit (Event.fileSeek (s.gb.numRamBanks * 0x2000))
    let s := s.emit (Event.fileWrite s.gb.gbClock)
    { s with gb := { s.gb with saveModified := true } }
  else s

/-- Replace the `mbc3` view of `gbClock`. -/
def setMbc3 (c : Mbc3Clock) (s : Sys) : Sys :=
  { s with gb := { s.gb with gbClock := { s.gb.gbClock with mbc3 := c } } }

/-- The `switch (currentRamBank)` block of `Gameboy::m3w`: a write to the selected
clock register, or to external RAM when no clock register is selected. -/
def rtcWrite (E : Ext) (addr val : Nat) (s : Sys) : Sys :=
  let c := s.gb.gbClock.mbc3
  match s.gb.currentRamBank with
  | 0x8 => if c.s ≠ val then writeClockStruct (setMbc3 { c with s := val } s) else s
  | 0x9 => if c.m ≠ val then writeClockStruct (setMbc3 { c with m := val } s) else s
  | 0xA => if c.h ≠ val then writeClockStruct (setMbc3 { c with h := val } s) else s
  | 0xB =>
    if (c.d &&& 0xff) ≠ val then
      writeClockStruct (setMbc3 { c with d := (c.d &&& 0x100) ||| val } s)
    else s
  | 0xC =>
    if c.ctrl ≠ val then
      writeClockStruct
        (setMbc3 { c with d := (c.d &&& 0xFF) ||| ((val &&& 1) <<< 8), ctrl := val } s)
    else s
  | _ => if s.gb.numRamBanks ≠ 0 then callWriteSram E (addr &&& 0x1fff) val s else s

/-- `Gameboy::m3w`. -/
def m3w (E : Ext) (addr val : Nat) (s : Sys) : Sys :=
  match addr >>> 12 with
  | 0x0 | 0x1 => setRamEnabled val s
  | 0x2 | 0x3 =>
    let val := val &&& 0x7f
    callRefreshRomBank E (if val ≠ 0 then val else 1) s
  | 0x4 | 0x5 =>
    if val ≤ 0x3 then callRefreshRamBank E val s
    else if val ≥ 8 ∧ val ≤ 0xc then { s with gb := { s.gb with currentRamBank := val } }
    else s
  | 0x6 | 0x7 => if val ≠ 0 then callLatchClock E s else s
  | 0xa | 0xb => if !s.gb.ramEnabled then s else rtcWrite E addr val s
  | _ => s

/-- The `0x4000 - 0x5fff` window of `Gameboy::m5w` and `Gameboy::m7w`: the rumble
motor and the RAM bank. -/
def rumbleRamBank (E : Ext) (val : Nat) (s : Sys) : Sys :=
  let val := val &&& 0xf
  if s.gb.hasRumble then
    let s :=
      if s.gb.rumbleStrength ≠ 0 then
        if s.gb.rumbleInserted then
          let rumbleValue := if val &&& 0x8 ≠ 0 then 1 else 0
          let s := { s with gb := { s.gb with rumbleValue := rumbleValue } }
          if rumbleValue ≠ s.gb.lastRumbleValue then
            let s := s.emit (Event.doRumble rumbleValue)
            { s with gb := { s.gb with lastRumbleValue := rumbleValue } }
          else s
        else s
      else s
    callRefreshRamBank E (val &&& 0x07) s
  else
    callRefreshRamBank E val s

/-- `Gameboy::m5w`. -/
def m5w (E : Ext) (addr val : Nat) (s : Sys) : Sys :=
  match addr >>> 12 with
  | 0x0 | 0x1 => setRamEnabled val s
  | 0x2 => callRefreshRomBank E ((s.gb.romBank &&& 0x100) ||| val) s
  | 0x3 => callRefreshRomBank E ((s.gb.romBank &&& 0xff) ||| ((val &&& 1) <<< 8)) s
  | 0x4 | 0x5 => rumbleRamBank E val s
  | 0x6 | 0x7 => s
  | 0xa | 0xb => sramWrite E addr val s
  | _ => s

/-- `Gameboy::m7w`. -/
def m7w (E : Ext) (addr val : Nat) (s : Sys) : Sys :=
  match addr >>> 12 with
  | 0x0 | 0x1 => setRamEnabled val s
  | 0x2 => callRefreshRomBank E ((s.gb.romBank &&& 0x100) ||| val) s
  | 0x3 => callRefreshRomBank E ((s.gb.romBank &&& 0xff) ||| ((val &&& 1) <<< 8)) s
  | 0x4 | 0x5 => rumbleRamBank E val s
  | 0x6 | 0x7 => s
  | 0xa | 0xb => sramWrite E addr val s
  | _ => s

/-- `Gameboy::h1w`. -/
def h1w (E : Ext) (addr val : Nat) (s : Sys) : Sys :=
  match addr >>> 12 with
  | 0x0 | 0x1 => setRamEnabled val s
  | 0x2 | 0x3 => callRefreshRomBank E (val &&& 0x3f) s
  | 0x4 | 0x5 =>
    let val := val &&& 3
    if s.gb.memoryModel = 0 then callRefreshRomBank E val s
    else callRefreshRamBank E val s
  | 0x6 | 0x7 => { s with gb := { s.gb with memoryModel := val &&& 1 } }
  | 0xa | 0xb => sramWrite E addr val s
  | _ => s

/-- `Gameboy::handleHuC3Command`. -/
def handleHuC3Command (E : Ext) (cmd : Nat) (s : Sys) : Sys :=
  match cmd &&& 0xf0 with
  | 0x10 =>
    if s.gb.HuC3Shift > 24 then s
    else
      let sh := s.gb.HuC3Shift
      let value :=
        match sh with
        | 0 | 4 | 8 => (s.gb.gbClock.huc3.m >>> sh) &&& 0xf
        | 12 | 16 | 20 => (s.gb.gbClock.huc3.d >>> (sh - 12)) &&& 0xf
        | 24 => s.gb.gbClock.huc3.y &&& 0xf
        | _ => s.gb.HuC3Value
      { s with gb := { s.gb with HuC3Value := value, HuC3Shift := sh + 4 } }
  | 0x40 =>
    let shift :=
      match cmd &&& 0xf with
      | 0 | 4 | 7 => 0
      | _ => s.gb.HuC3Shift
    callLatchClock E { s with gb := { s.gb with HuC3Shift := shift } }
  | 0x50 => s
  | 0x60 => { s with gb := { s.gb with HuC3Value := 1 } }
  | _ => s.emit (Event.printLog cmd)

/-- `Gameboy::h3w`. -/
def h3w (E : Ext) (addr val : Nat) (s : Sys) : Sys :=
  match addr >>> 12 with
  | 0x0 | 0x1 =>
    let s := setRamEnabled val s
    { s with gb := { s.gb with HuC3Mode := val } }
  | 0x2 | 0x3 => callRefreshRomBank E (if val ≠ 0 then val else 1) s
  | 0x4 | 0x5 => callRefreshRamBank E (val &&& 0xf) s
  | 0x6 | 0x7 => s
  | 0xa | 0xb =>
    match s.gb.HuC3Mode with
    | 0xb => handleHuC3Command E val s
    | 0xc | 0xd | 0xe => s
    | _ => sramWrite E addr val s
  | _ => s

/-- A reference environment: a bank refresh stores its argument in the bank
register, `writeSram` stores the byte in the external RAM pages `0xa` and `0xb`,
and `latchClock` leaves the object as it is. -/
def storeExt : Ext where
  refreshRomBank := fun bank g => { g with romBank := bank }
  refreshRamBank := fun bank g => { g with currentRamBank := bank }
  writeSram := fun addr val g =>
    { g with memory := fun page off =>
        if page = 0xa + (addr >>> 12) ∧ off = (addr &&& 0xfff) then val else g.memory page off }
  latchClock := fun g => g

/-- A freshly loaded cartridge: everything zero or off, no RAM banks. -/
def gb0 : Gameboy where
  ramEnabled := false
  romBank := 1
  currentRamBank := 0
  memoryModel := 0
  numRamBanks := 0
  rockmanMapper := false
  HuC3Mode := 0
  HuC3Value := 0
  HuC3Shift := 0
  gbClock := { mbc3 := { s := 0, m := 0, h := 0, d := 0, ctrl := 0 },
               huc3 := { m := 0, d := 0, y := 0 } }
  hasRumble := false
  rumbleStrength := 0
  rumbleInserted := false
  rumbleValue := 0
  lastRumbleValue := 0
  autoSavingEnabled := false
  saveModified := false
  memory := fun _ _ => 0

/-- The machine of a freshly loaded cartridge, with an empty trace. -/
def sys0 : Sys := { gb := gb0, trace := [] }

/-- The calls made between the machine `s` and the later machine `t`. -/
def emitted (s t : Sys) : List Event :=
  t.trace.drop s.trace.length

/-- An MBC1 cartridge whose upper ROM bank bits are set: bank `0x20` is mapped. -/
def sysBank32 : Sys := { gb := { gb0 with romBank := 0x20 }, trace := [] }

/-- The value of the MBC3 clock register that `currentRamBank` selects: `s`, `m`,
`h`, `d & 0xFF` or `ctrl` for the selectors 8 to 12 (0 when none is selected). -/
def rtcRegister (g : Gameboy) : Nat :=
  match g.currentRamBank with
  | 0x8 => g.gbClock.mbc3.s
  | 0x9 => g.gbClock.mbc3.m
  | 0xA => g.gbClock.mbc3.h
  | 0xB => g.gbClock.mbc3.d &&& 0xFF
  | 0xC => g.gbClock.mbc3.ctrl
  | _ => 0

/-- Bit 8 of a day counter. -/
def dayHigh (d : Nat) : Nat := (d >>> 8) &&& 1

/-- An MBC3 cartridge with RAM enabled and `currentRamBank = sel` (a clock register
when `sel` is in 8..12, a RAM bank otherwise), no RAM banks, and a clock holding the
day counter `d` and zero elsewhere. -/
def sysRtc (sel d : Nat) : Sys :=
  { gb := { gb0 with
      ramEnabled := true, currentRamBank := sel,
      gbClock := { mbc3 := { s := 0, m := 0, h := 0, d := d, ctrl := 0 },
                   huc3 := { m := 0, d := 0, y := 0 } } },
    trace := [] }

/-- Run a handler over a list of writes `(address, value)`, first to last. -/
def writes (handler : Nat → Nat → Sys → Sys) (ws : List (Nat × Nat)) (s : Sys) : Sys :=
  ws.foldl (fun t w => handler w.1 w.2 t) s

/-- A HuC3 cartridge in command mode (`HuC3Mode = 0xB`) whose clock holds `0x2A5`
minutes, `0x16B` days and 3 years. -/
def sysHuC3 : Sys :=
  { gb := { gb0 with
      HuC3Mode := 0xB,
      gbClock := { mbc3 := { s := 0, m := 0, h := 0, d := 0, ctrl := 0 },
                   huc3 := { m := 0x2A5, d := 0x16B, y := 3 } } },
    trace := [] }

/-- The motor-enable bit of a written value, as the rumble code reads it:
`(val & 0x8) ? 1 : 0`. -/
def bit3 (v : Nat) : Nat := if v &&& 0x8 ≠ 0 then 1 else 0

/-- The external `refreshRamBank` leaves the rumble configuration and the last
rumble value alone. -/
def RumbleFrame (E : Ext) : Prop :=
  ∀ (b : Nat) (g : Gameboy),
    (E.refreshRamBank b g).hasRumble = g.hasRumble ∧
    (E.refreshRamBank b g).rumbleStrength = g.rumbleStrength ∧
    (E.refreshRamBank b g).rumbleInserted = g.rumbleInserted ∧
    (E.refreshRamBank b g).lastRumbleValue = g.lastRumbleValue

/-- A rumble cartridge (MBC5 or MBC7) with a rumble device inserted, strength 2 and
the motor idle. -/
def sysRumble : Sys :=
  { gb := { gb0 with hasRumble := true, rumbleStrength := 2, rumbleInserted := true },
    trace := [] }

/-- A plain (MBC0) cartridge with one RAM bank and `ramEnabled` false. -/
def sysPlainRam : Sys := { gb := { gb0 with numRamBanks := 1 }, trace := [] }

/-- A cartridge with one RAM bank and RAM enabled. -/
def sysRamOn : Sys :=
  { gb := { gb0 with ramEnabled := true, numRamBanks := 1 }, trace := [] }

/-- A rumble cartridge (MBC5 or MBC7) with a rumble device inserted and
`rumbleStrength = 0`. -/
def sysRumbleNoStrength : Sys :=
  { gb := { gb0 with hasRumble := true, rumbleStrength := 0, rumbleInserted := true },
    trace := [] }

/-- A rumble cartridge (MBC5 or MBC7) with nonzero strength and no rumble device
inserted. -/
def sysRumbleNoDevice : Sys :=
  { gb := { gb0 with hasRumble := true, rumbleStrength := 2, rumbleInserted := false },
    trace := [] }

/-- The external `refreshRomBank` stores its argument as `romBank`. -/
def StoresRomBank (E : Ext) : Prop :=
  ∀ (b : Nat) (g : Gameboy), (E.refreshRomBank b g).romBank = b

/-- An MBC1 cartridge with the rockmanMapper quirk, bank `0x65` mapped. -/
def sysRockman : Sys :=
  { gb := { gb0 with rockmanMapper := true, romBank := 0x65 }, trace := [] }

/-- Run `handleHuC3Command` over a list of command bytes, first to last. -/
def commands (E : Ext) (cs : List Nat) (s : Sys) : Sys :=
  cs.foldl (fun t c => handleHuC3Command E c t) s

/-- The external `latchClock` leaves `HuC3Shift` alone. -/
def ShiftFrame (E : Ext) : Prop :=
  ∀ g : Gameboy, (E.latchClock g).HuC3Shift = g.HuC3Shift

/-- A HuC3 cartridge in command mode whose shift counter is 24. -/
def sysShift24 : Sys := { gb := { sysHuC3.gb with HuC3Shift := 24 }, trace := [] }

/-- The MBC3 day counter is below 512 and its bit 8 equals bit 0 of the control
byte. -/
def ClockInv (g : Gameboy) : Prop :=
  g.gbClock.mbc3.d < 512 ∧ dayHigh g.gbClock.mbc3.d = g.gbClock.mbc3.ctrl &&& 1

/-- The external `refreshRomBank`, `refreshRamBank` and `writeSram` leave the clock
structure alone. -/
def ClockFrame (E : Ext) : Prop :=
  (∀ (b : Nat) (g : Gameboy), (E.refreshRomBank b g).gbClock = g.gbClock) ∧
  (∀ (b : Nat) (g : Gameboy), (E.refreshRamBank b g).gbClock = g.gbClock) ∧
  (∀ (a x : Nat) (g : Gameboy), (E.writeSram a x g).gbClock = g.gbClock)

/-- On HuC3, `ramEnabled` is true exactly when the low nibble of `HuC3Mode` is
`0xA`. -/
def HuC3Inv (g : Gameboy) : Prop :=
  g.ramEnabled = true ↔ g.HuC3Mode &&& 0xF = 0xA

/-- The external methods leave `ramEnabled` and `HuC3Mode` alone. -/
def HuC3Frame (E : Ext) : Prop :=
  (∀ (b : Nat) (g : Gameboy), (E.refreshRomBank b g).ramEnabled = g.ramEnabled ∧
    (E.refreshRomBank b g).HuC3Mode = g.HuC3Mode) ∧
  (∀ (b : Nat) (g : Gameboy), (E.refreshRamBank b g).ramEnabled = g.ramEnabled ∧
    (E.refreshRamBank b g).HuC3Mode = g.HuC3Mode) ∧
  (∀ (a x : Nat) (g : Gameboy), (E.writeSram a x g).ramEnabled = g.ramEnabled ∧
    (E.writeSram a x g).HuC3Mode = g.HuC3Mode) ∧
  (∀ g : Gameboy, (E.latchClock g).ramEnabled = g.ramEnabled ∧
    (E.latchClock g).HuC3Mode = g.HuC3Mode)

/-- The ROM bank of the rockmanMapper quirk as the specification words it, with
`b = v & 0x1F`: `b - 8` when `b > 15`, `b` when `1 <= b <= 15`, and 1 when `b = 0`. -/
def rockmanBank (v : Nat) : Nat :=
  if v &&& 0x1F > 15 then (v &&& 0x1F) - 8
  else if 1 ≤ v &&& 0x1F then v &&& 0x1F
  else 1

/-! ## Auxiliary facts -/

theorem window_01 (addr : Nat) (ha : addr ≤ 0x1FFF) :
    addr >>> 12 = 0 ∨ addr >>> 12 = 1 := by
  rw [Nat.shiftRight_eq_div_pow]; norm_num; omega

theorem window_23 (addr : Nat) (ha : 0x2000 ≤ addr ∧ addr ≤ 0x3FFF) :
    addr >>> 12 = 2 ∨ addr >>> 12 = 3 := by
  rw [Nat.shiftRight_eq_div_pow]; norm_num; omega

theorem window_45 (addr : Nat) (ha : 0x4000 ≤ addr ∧ addr ≤ 0x5FFF) :
    addr >>> 12 = 4 ∨ addr >>> 12 = 5 := by
  rw [Nat.shiftRight_eq_div_pow]; norm_num; omega

theorem window_67 (addr : Nat) (ha : 0x6000 ≤ addr ∧ addr ≤ 0x7FFF) :
    addr >>> 12 = 6 ∨ addr >>> 12 = 7 := by
  rw [Nat.shiftRight_eq_div_pow]; norm_num; omega

theorem window_ab (addr : Nat) (ha : 0xA000 ≤ addr ∧ addr ≤ 0xBFFF) :
    addr >>> 12 = 0xa ∨ addr >>> 12 = 0xb := by
  rw [Nat.shiftRight_eq_div_pow]; norm_num; omega

@[simp] theorem emitted_self (s : Sys) : emitted s s = [] := by
  simp [emitted]

@[simp] theorem emitted_callRefreshRomBank (E : Ext) (b : Nat) (s : Sys) :
    emitted s (callRefreshRomBank E b s) = [Event.refreshRomBank b] := by
  simp [emitted, callRefreshRomBank]

@[simp] theorem emitted_callRefreshRamBank (E : Ext) (b : Nat) (s : Sys) :
    emitted s (callRefreshRamBank E b s) = [Event.refreshRamBank b] := by
  simp [emitted, callRefreshRamBank]

@[simp] theorem emitted_callWriteSram (E : Ext) (a v : Nat) (s : Sys) :
    emitted s (callWriteSram E a v s) = [Event.writeSram a v] := by
  simp [emitted, callWriteSram]

@[simp] theorem emitted_callLatchClock (E : Ext) (s : Sys) :
    emitted s (callLatchClock E s) = [Event.latchClock] := by
  simp [emitted, callLatchClock]

@[simp] theorem emitted_mk_same (g : Gameboy) (s : Sys) :
    emitted s { gb := g, trace := s.trace } = [] := by
  simp [emitted]

theorem emitted_emit (e : Event) (s : Sys) : emitted s (s.emit e) = [e] := by
  simp [emitted, Sys.emit]

theorem emitted_sramWrite (E : Ext) (a v : Nat) (s : Sys) :
    emitted s (sramWrite E a v s) =
      if s.gb.ramEnabled = true ∧ s.gb.numRamBanks ≠ 0 then [Event.writeSram (a &&& 0x1fff) v]
      else [] := by
  unfold sramWrite
  split_ifs <;> simp

theorem emitted_writeClockStruct (s t : Sys) (h : t.trace = s.trace) :
    emitted s (writeClockStruct t) =
      if t.gb.autoSavingEnabled = true then
        [Event.writeClockStruct, Event.fileSeek (t.gb.numRamBanks * 0x2000),
          Event.fileWrite t.gb.gbClock]
      else [Event.writeClockStruct] := by
  unfold writeClockStruct
  simp only [Sys.emit]
  split_ifs <;> simp [emitted, h]

theorem emitted_rtc_store (c : Mbc3Clock) (s : Sys) :
    emitted s (writeClockStruct (setMbc3 c s)) =
      if s.gb.autoSavingEnabled = true then
        [Event.writeClockStruct, Event.fileSeek (s.gb.numRamBanks * 0x2000),
          Event.fileWrite { s.gb.gbClock with mbc3 := c }]
      else [Event.writeClockStruct] :=
  emitted_writeClockStruct s (setMbc3 c s) rfl

theorem emitted_handleHuC3Command (E : Ext) (c : Nat) (s : Sys) :
    emitted s (handleHuC3Command E c s) = [] ∨
    emitted s (handleHuC3Command E c s) = [Event.latchClock] ∨
    emitted s (handleHuC3Command E c s) = [Event.printLog c] := by
  unfold handleHuC3Command
  split
  · split_ifs
    · simp
    · left; simp [emitted]
  · right; left; simp [emitted, callLatchClock]
  · simp
  · left; simp [emitted]
  · right; right; exact emitted_emit _ _

theorem rom_request_pos (n b : Nat) (h : b = if n = 0 then 1 else n) : 1 ≤ b := by
  subst h; split_ifs <;> omega

theorem rtcWrite_no_rom_request (E : Ext) (addr v : Nat) (s : Sys) (b : Nat) :
    Event.refreshRomBank b ∉ emitted s (rtcWrite E addr v s) := by
  unfold rtcWrite
  split
  all_goals
    dsimp only
    split_ifs
    all_goals
      first
        | (simp; done)
        | (rw [emitted_rtc_store]; split_ifs <;> simp)

theorem m1w_rom_request_pos (E : Ext) (addr v : Nat) (s : Sys) (b : Nat) :
    Event.refreshRomBank b ∈ emitted s (m1w E addr v s) → 1 ≤ b := by
  unfold m1w
  split
  all_goals
    first
      | (simp [setRamEnabled, emitted_sramWrite]; done)
      | (simp; exact rom_request_pos _ _)
      | (split_ifs <;> simp; exact rom_request_pos _ _)

theorem m2w_rom_request_pos (E : Ext) (addr v : Nat) (s : Sys) (b : Nat) :
    Event.refreshRomBank b ∈ emitted s (m2w E addr v s) → 1 ≤ b := by
  unfold m2w
  split
  all_goals
    first
      | (simp [setRamEnabled, emitted_sramWrite]; done)
      | (simp; exact rom_request_pos _ _)

theorem m3w_rom_request_pos (E : Ext) (addr v : Nat) (s : Sys) (b : Nat) :
    Event.refreshRomBank b ∈ emitted s (m3w E addr v s) → 1 ≤ b := by
  unfold m3w
  split
  all_goals
    first
      | (simp [setRamEnabled]; done)
      | (simp; exact rom_request_pos _ _)
      | (split_ifs <;> simp [rtcWrite_no_rom_request])

theorem h3w_rom_request_pos (E : Ext) (addr v : Nat) (s : Sys) (b : Nat) :
    Event.refreshRomBank b ∈ emitted s (h3w E addr v s) → 1 ≤ b := by
  unfold h3w
  split
  all_goals
    first
      | (simp [setRamEnabled]; done)
      | (simp; exact rom_request_pos _ _)
      | (split
         all_goals
           first
             | (simp [emitted_sramWrite])
             | (rcases emitted_handleHuC3Command E v s with h | h | h <;> simp [h]))

theorem tb255 (i : Nat) : Nat.testBit 255 i = decide (i < 8) := by
  have := Nat.testBit_two_pow_sub_one 8 i
  simpa using this

theorem tb256 (i : Nat) : Nat.testBit 256 i = decide (i = 8) := by
  have := @Nat.testBit_two_pow 8 i
  simpa [eq_comm] using this

theorem byte_testBit (v i : Nat) (hv : v < 256) (hi : 8 ≤ i) : v.testBit i = false := by
  apply Nat.testBit_lt_two_pow
  calc v < 2 ^ 8 := hv
    _ ≤ 2 ^ i := Nat.pow_le_pow_right (by decide) hi

theorem day_low_after_low (d v : Nat) (hv : v < 256) : ((d &&& 0x100) ||| v) &&& 0xff = v := by
  apply Nat.eq_of_testBit_eq
  intro i
  simp only [Nat.testBit_and, Nat.testBit_or, tb255, tb256]
  by_cases h : i < 8
  · have : i ≠ 8 := by omega
    simp [h, this]
  · simp [h, byte_testBit v i hv (by omega)]

theorem tb1 (i : Nat) : Nat.testBit 1 i = decide (i = 0) := by
  have := Nat.testBit_two_pow_sub_one 1 i
  simpa using this

theorem day_high_after_low (d v : Nat) (hv : v < 256) :
    (((d &&& 0x100) ||| v) >>> 8) &&& 1 = (d >>> 8) &&& 1 := by
  apply Nat.eq_of_testBit_eq
  intro i
  simp only [Nat.testBit_and, Nat.testBit_or, tb256, tb1, Nat.testBit_shiftRight]
  by_cases h : i = 0
  · subst h; simp [byte_testBit v 8 hv (by omega)]
  · simp [h]

theorem day_low_after_ctrl (d v : Nat) :
    ((d &&& 0xFF) ||| ((v &&& 1) <<< 8)) &&& 0xFF = d &&& 0xFF := by
  apply Nat.eq_of_testBit_eq
  intro i
  simp only [Nat.testBit_and, Nat.testBit_or, tb255, Nat.testBit_shiftLeft]
  by_cases h : i < 8
  · have : ¬ 8 ≤ i := by omega
    simp [h, this]
  · simp [h]

theorem day_high_after_ctrl (d v : Nat) :
    (((d &&& 0xFF) ||| ((v &&& 1) <<< 8)) >>> 8) &&& 1 = v &&& 1 := by
  apply Nat.eq_of_testBit_eq
  intro i
  simp only [Nat.testBit_and, Nat.testBit_or, tb255, tb1, Nat.testBit_shiftLeft,
    Nat.testBit_shiftRight]
  by_cases h : i = 0
  · subst h; simp
  · simp [h]

theorem m3w_ram_window (E : Ext) (addr v : Nat) (s : Sys)
    (ha : 0xA000 ≤ addr ∧ addr ≤ 0xBFFF) (hr : s.gb.ramEnabled = true) :
    m3w E addr v s = rtcWrite E addr v s := by
  rcases window_ab addr ha with h | h <;> simp [m3w, h, hr]

theorem m3r_selected (addr : Nat) (g : Gameboy) (hr : g.ramEnabled = true)
    (hb : 8 ≤ g.currentRamBank ∧ g.currentRamBank ≤ 12) : m3r addr g = rtcRegister g := by
  have hsel : g.currentRamBank = 8 ∨ g.currentRamBank = 9 ∨ g.currentRamBank = 10 ∨
      g.currentRamBank = 11 ∨ g.currentRamBank = 12 := by omega
  rcases hsel with h | h | h | h | h <;> simp [m3r, rtcRegister, hr, h]

theorem rtc_selected (n : Nat) (hb : 8 ≤ n ∧ n ≤ 12) :
    n = 8 ∨ n = 9 ∨ n = 10 ∨ n = 11 ∨ n = 12 := by
  omega

theorem rtc_write_same (E : Ext) (addr v : Nat) (s : Sys)
    (hb : 8 ≤ s.gb.currentRamBank ∧ s.gb.currentRamBank ≤ 12) (hc : v = rtcRegister s.gb) :
    rtcWrite E addr v s = s := by
  rcases rtc_selected _ hb with h | h | h | h | h
  all_goals
    simp only [rtcRegister, h] at hc
    simp [rtcWrite, h, hc]

theorem rtc_write_changed (E : Ext) (addr v : Nat) (s : Sys)
    (hb : 8 ≤ s.gb.currentRamBank ∧ s.gb.currentRamBank ≤ 12) (hc : v ≠ rtcRegister s.gb) :
    ∃ c, rtcWrite E addr v s = writeClockStruct (setMbc3 c s) := by
  rcases rtc_selected _ hb with h | h | h | h | h
  all_goals
    simp only [rtcRegister, h] at hc
    simp only [rtcWrite, h, if_pos (Ne.symm hc)]
    exact ⟨_, rfl⟩

theorem rtc_write_spec (E : Ext) (addr v : Nat) (s : Sys)
    (hb : 8 ≤ s.gb.currentRamBank ∧ s.gb.currentRamBank ≤ 12) :
    (Event.writeClockStruct ∈ emitted s (rtcWrite E addr v s) ↔ v ≠ rtcRegister s.gb) ∧
    (v = rtcRegister s.gb → rtcWrite E addr v s = s) ∧
    (∀ a x, Event.writeSram a x ∉ emitted s (rtcWrite E addr v s)) ∧
    (emitted s (rtcWrite E addr v s)).count Event.writeClockStruct =
      (if v = rtcRegister s.gb then 0 else 1) := by
  rcases eq_or_ne v (rtcRegister s.gb) with hc | hc
  · rw [rtc_write_same E addr v s hb hc]
    simp [hc]
  · obtain ⟨c, hw⟩ := rtc_write_changed E addr v s hb hc
    rw [hw, emitted_rtc_store]
    refine ⟨?_, ?_, ?_, ?_⟩
    · split_ifs <;> simp [hc]
    · intro hv; exact absurd hv hc
    · intro a x; split_ifs <;> simp
    · rw [if_neg hc]; split_ifs <;> simp

theorem writeClockStruct_frame (t : Sys) :
    (writeClockStruct t).gb.ramEnabled = t.gb.ramEnabled ∧
    (writeClockStruct t).gb.currentRamBank = t.gb.currentRamBank ∧
    (writeClockStruct t).gb.gbClock = t.gb.gbClock := by
  unfold writeClockStruct
  simp only [Sys.emit]
  split_ifs <;> simp

theorem rtc_after_write (E : Ext) (addr v : Nat) (s : Sys) (hv : v < 256)
    (hb : 8 ≤ s.gb.currentRamBank ∧ s.gb.currentRamBank ≤ 12) :
    (rtcWrite E addr v s).gb.ramEnabled = s.gb.ramEnabled ∧
    (rtcWrite E addr v s).gb.currentRamBank = s.gb.currentRamBank ∧
    rtcRegister (rtcWrite E addr v s).gb = v := by
  rcases rtc_selected _ hb with h | h | h | h | h
  all_goals
    simp only [rtcWrite, h]
    split_ifs with hc
    · simp [writeClockStruct_frame, setMbc3, rtcRegister, h, day_low_after_low _ _ hv]
    · simp only [ne_eq, not_not] at hc
      simp [rtcRegister, h, hc]

/-! ### The trace only grows -/

theorem writeClockStruct_trace (t : Sys) :
    ∃ l, (writeClockStruct t).trace = t.trace ++ l := by
  unfold writeClockStruct
  simp only [Sys.emit]
  split_ifs <;> simp

theorem rtcWrite_trace (E : Ext) (addr v : Nat) (s : Sys) :
    ∃ l, (rtcWrite E addr v s).trace = s.trace ++ l := by
  unfold rtcWrite
  split
  all_goals
    dsimp only
    split_ifs
    all_goals
      first
        | exact ⟨[], (List.append_nil _).symm⟩
        | exact writeClockStruct_trace (setMbc3 _ s)
        | exact ⟨_, rfl⟩

theorem handleHuC3Command_trace (E : Ext) (c : Nat) (s : Sys) :
    ∃ l, (handleHuC3Command E c s).trace = s.trace ++ l := by
  unfold handleHuC3Command
  split
  all_goals
    first
      | exact ⟨[], (List.append_nil _).symm⟩
      | exact ⟨_, rfl⟩
      | (split_ifs <;> exact ⟨[], (List.append_nil _).symm⟩)

theorem sramWrite_trace (E : Ext) (addr v : Nat) (s : Sys) :
    ∃ l, (sramWrite E addr v s).trace = s.trace ++ l := by
  unfold sramWrite
  split_ifs <;> first | exact ⟨[], (List.append_nil _).symm⟩ | exact ⟨_, rfl⟩

theorem rumbleRamBank_trace (E : Ext) (v : Nat) (s : Sys) :
    ∃ l, (rumbleRamBank E v s).trace = s.trace ++ l := by
  unfold rumbleRamBank
  dsimp only
  split_ifs <;> simp [callRefreshRamBank, Sys.emit]

/-- Every write handler only appends to the trace: the calls of a write are the
suffix `emitted` of the trace after it. -/
theorem write_trace (E : Ext) (addr v : Nat) (s : Sys) :
    (m0w E addr v s).trace = s.trace ++ emitted s (m0w E addr v s) ∧
    (m1w E addr v s).trace = s.trace ++ emitted s (m1w E addr v s) ∧
    (m2w E addr v s).trace = s.trace ++ emitted s (m2w E addr v s) ∧
    (m3w E addr v s).trace = s.trace ++ emitted s (m3w E addr v s) ∧
    (m5w E addr v s).trace = s.trace ++ emitted s (m5w E addr v s) ∧
    (m7w E addr v s).trace = s.trace ++ emitted s (m7w E addr v s) ∧
    (h1w E addr v s).trace = s.trace ++ emitted s (h1w E addr v s) ∧
    (h3w E addr v s).trace = s.trace ++ emitted s (h3w E addr v s) := by
  have key : ∀ t : Sys, (∃ l, t.trace = s.trace ++ l) → t.trace = s.trace ++ emitted s t := by
    rintro t ⟨l, hl⟩
    simp [emitted, hl]
  refine ⟨key _ ?_, key _ ?_, key _ ?_, key _ ?_, key _ ?_, key _ ?_, key _ ?_, key _ ?_⟩
  · unfold m0w
    split <;> first | exact ⟨[], (List.append_nil _).symm⟩ | (split_ifs <;> first | exact ⟨[], (List.append_nil _).symm⟩ | exact ⟨_, rfl⟩)
  · unfold m1w
    split <;> first
      | exact ⟨[], (List.append_nil _).symm⟩
      | exact sramWrite_trace E _ _ s
      | exact ⟨_, rfl⟩
      | (dsimp only; split_ifs <;> exact ⟨_, rfl⟩)
  · unfold m2w
    split <;> first
      | exact ⟨[], (List.append_nil _).symm⟩
      | exact sramWrite_trace E _ _ s
      | exact ⟨_, rfl⟩
  · unfold m3w
    split <;> first
      | exact ⟨[], (List.append_nil _).symm⟩
      | exact ⟨_, rfl⟩
      | (split_ifs <;> first
          | exact ⟨[], (List.append_nil _).symm⟩
          | exact ⟨_, rfl⟩
          | exact rtcWrite_trace E _ _ s)
  · unfold m5w
    split <;> first
      | exact ⟨[], (List.append_nil _).symm⟩
      | exact sramWrite_trace E _ _ s
      | exact rumbleRamBank_trace E _ s
      | exact ⟨_, rfl⟩
  · unfold m7w
    split <;> first
      | exact ⟨[], (List.append_nil _).symm⟩
      | exact sramWrite_trace E _ _ s
      | exact rumbleRamBank_trace E _ s
      | exact ⟨_, rfl⟩
  · unfold h1w
    split <;> first
      | exact ⟨[], (List.append_nil _).symm⟩
      | exact sramWrite_trace E _ _ s
      | exact ⟨_, rfl⟩
      | (dsimp only; split_ifs <;> exact ⟨_, rfl⟩)
  · unfold h3w
    split <;> first
      | exact ⟨[], (List.append_nil _).symm⟩
      | exact ⟨_, rfl⟩
      | (split <;> first
          | exact ⟨[], (List.append_nil _).symm⟩
          | exact sramWrite_trace E _ _ s
          | exact handleHuC3Command_trace E _ s)

/-! ## C1: the RAM enable gate -/

/-- C1, as stated, fails on the plain mapper: `m0w` ignores a write of `0x0A` to
address `0x0000`, and `ramEnabled` stays false. -/
theorem C1_m0w_ignores_enable :
    0x0A &&& 0xF = 0xA ∧ (m0w storeExt 0x0000 0x0A sys0).gb.ramEnabled = false := by
  decide

/-- C1, amended: for MBC1, MBC2, MBC3, MBC5, MBC7, HuC1 and HuC3, after a write of
`v` to an address in `0x0000 - 0x1FFF`, `ramEnabled` is true exactly when
`(v & 0xF) = 0xA`; the plain mapper `m0w` leaves the whole machine as it was. -/
theorem C1_ram_enable_gate (E : Ext) (addr v : Nat) (s : Sys) (ha : addr ≤ 0x1FFF) :
    ((m1w E addr v s).gb.ramEnabled = true ↔ v &&& 0xF = 0xA) ∧
    ((m2w E addr v s).gb.ramEnabled = true ↔ v &&& 0xF = 0xA) ∧
    ((m3w E addr v s).gb.ramEnabled = true ↔ v &&& 0xF = 0xA) ∧
    ((m5w E addr v s).gb.ramEnabled = true ↔ v &&& 0xF = 0xA) ∧
    ((m7w E addr v s).gb.ramEnabled = true ↔ v &&& 0xF = 0xA) ∧
    ((h1w E addr v s).gb.ramEnabled = true ↔ v &&& 0xF = 0xA) ∧
    ((h3w E addr v s).gb.ramEnabled = true ↔ v &&& 0xF = 0xA) ∧
    m0w E addr v s = s := by
  rcases window_01 addr ha with h | h <;>
    simp [m0w, m1w, m2w, m3w, m5w, m7w, h1w, h3w, setRamEnabled, h]

/-- Witness of C1 (amended): a write of `0x0A` to `0x1000` from the reference
machine. -/
theorem C1_ram_enable_gate_witness :
    (0x1000 : Nat) ≤ 0x1FFF ∧
    (((m1w storeExt 0x1000 0x0A sys0).gb.ramEnabled = true ↔ 0x0A &&& 0xF = 0xA) ∧
     ((m2w storeExt 0x1000 0x0A sys0).gb.ramEnabled = true ↔ 0x0A &&& 0xF = 0xA) ∧
     ((m3w storeExt 0x1000 0x0A sys0).gb.ramEnabled = true ↔ 0x0A &&& 0xF = 0xA) ∧
     ((m5w storeExt 0x1000 0x0A sys0).gb.ramEnabled = true ↔ 0x0A &&& 0xF = 0xA) ∧
     ((m7w storeExt 0x1000 0x0A sys0).gb.ramEnabled = true ↔ 0x0A &&& 0xF = 0xA) ∧
     ((h1w storeExt 0x1000 0x0A sys0).gb.ramEnabled = true ↔ 0x0A &&& 0xF = 0xA) ∧
     ((h3w storeExt 0x1000 0x0A sys0).gb.ramEnabled = true ↔ 0x0A &&& 0xF = 0xA) ∧
     m0w storeExt 0x1000 0x0A sys0 = sys0) :=
  ⟨by decide, C1_ram_enable_gate storeExt 0x1000 0x0A sys0 (by decide)⟩

/-! ## C2: bank 0 is never requested -/

/-- C2: on MBC1 (with or without the rockmanMapper quirk), MBC2, MBC3 and HuC3, in
every state and for every address and value, every bank that a write passes to
`refreshRomBank` is at least 1. -/
theorem C2_rom_request_never_zero (E : Ext) (addr v : Nat) (s : Sys) (b : Nat) :
    (Event.refreshRomBank b ∈ emitted s (m1w E addr v s) → 1 ≤ b) ∧
    (Event.refreshRomBank b ∈ emitted s (m2w E addr v s) → 1 ≤ b) ∧
    (Event.refreshRomBank b ∈ emitted s (m3w E addr v s) → 1 ≤ b) ∧
    (Event.refreshRomBank b ∈ emitted s (h3w E addr v s) → 1 ≤ b) :=
  ⟨m1w_rom_request_pos E addr v s b, m2w_rom_request_pos E addr v s b,
   m3w_rom_request_pos E addr v s b, h3w_rom_request_pos E addr v s b⟩

/-- Witness of C2: writing 0 to `0x2000` on MBC1 requests bank 1, which is at
least 1. -/
theorem C2_rom_request_never_zero_witness :
    Event.refreshRomBank 1 ∈ emitted sys0 (m1w storeExt 0x2000 0 sys0) ∧ 1 ≤ 1 :=
  ⟨by decide, (C2_rom_request_never_zero storeExt 0x2000 0 sys0 1).1 (by decide)⟩

/-! ## C3: writing 0 to the ROM bank register -/

/-- C3, as stated, fails on MBC1 without the rockmanMapper quirk: with bank `0x20`
mapped, writing 0 to `0x2000` requests bank `0x20`, not bank 1. -/
theorem C3_m1w_keeps_upper_bits :
    emitted sysBank32 (m1w storeExt 0x2000 0 sysBank32) = [Event.refreshRomBank 0x20] ∧
    emitted sysBank32 (m1w storeExt 0x2000 0 sysBank32) ≠ [Event.refreshRomBank 1] := by
  decide

/-- C3, amended: writing 0 to an address in `0x2000 - 0x3FFF` requests exactly ROM
bank 1 on MBC2, MBC3 and HuC3, and on MBC1 when the rockmanMapper quirk is set or
`romBank & 0xE0` is 0; on MBC1 otherwise it requests bank `romBank & 0xE0`. -/
theorem C3_write_zero_requests_bank (E : Ext) (addr : Nat) (s : Sys)
    (ha : 0x2000 ≤ addr ∧ addr ≤ 0x3FFF) :
    emitted s (m2w E addr 0 s) = [Event.refreshRomBank 1] ∧
    emitted s (m3w E addr 0 s) = [Event.refreshRomBank 1] ∧
    emitted s (h3w E addr 0 s) = [Event.refreshRomBank 1] ∧
    emitted s (m1w E addr 0 s) =
      [Event.refreshRomBank
        (if s.gb.rockmanMapper = true ∨ s.gb.romBank &&& 0xE0 = 0 then 1
         else s.gb.romBank &&& 0xE0)] := by
  rcases window_23 addr ha with h | h <;> simp [m1w, m2w, m3w, h3w, h] <;>
    by_cases hr : s.gb.rockmanMapper = true <;> simp [hr]

/-- Witness of C3 (amended): the write of 0 to `0x2000` with bank `0x20` mapped. -/
theorem C3_write_zero_requests_bank_witness :
    (0x2000 ≤ 0x2000 ∧ 0x2000 ≤ 0x3FFF) ∧
    (emitted sysBank32 (m2w storeExt 0x2000 0 sysBank32) = [Event.refreshRomBank 1] ∧
     emitted sysBank32 (m3w storeExt 0x2000 0 sysBank32) = [Event.refreshRomBank 1] ∧
     emitted sysBank32 (h3w storeExt 0x2000 0 sysBank32) = [Event.refreshRomBank 1] ∧
     emitted sysBank32 (m1w storeExt 0x2000 0 sysBank32) =
       [Event.refreshRomBank
         (if sysBank32.gb.rockmanMapper = true ∨ sysBank32.gb.romBank &&& 0xE0 = 0 then 1
          else sysBank32.gb.romBank &&& 0xE0)]) :=
  ⟨by decide, C3_write_zero_requests_bank storeExt 0x2000 sysBank32 (by decide)⟩

/-! ## C4, C5, C6: writes to the MBC3 clock registers -/

/-- C4: on MBC3 with RAM enabled and a clock register selected (`currentRamBank` in
8..12), a write of `v` to `0xA000 - 0xBFFF` calls `writeClockStruct` if and only if
`v` differs from the current value of the selected register; when `v` equals it the
whole machine, trace included, is left as it was; and no SRAM write happens in
either case. -/
theorem C4_rtc_persists_iff_changed (E : Ext) (addr v : Nat) (s : Sys)
    (ha : 0xA000 ≤ addr ∧ addr ≤ 0xBFFF) (hr : s.gb.ramEnabled = true)
    (hb : 8 ≤ s.gb.currentRamBank ∧ s.gb.currentRamBank ≤ 12) :
    (Event.writeClockStruct ∈ emitted s (m3w E addr v s) ↔ v ≠ rtcRegister s.gb) ∧
    (v = rtcRegister s.gb → m3w E addr v s = s) ∧
    (∀ a x, Event.writeSram a x ∉ emitted s (m3w E addr v s)) := by
  rw [m3w_ram_window E addr v s ha hr]
  obtain ⟨h1, h2, h3, _⟩ := rtc_write_spec E addr v s hb
  exact ⟨h1, h2, h3⟩

/-- Witness of C4: a write of 5 to the seconds register, which holds 0. -/
theorem C4_rtc_persists_iff_changed_witness :
    ((0xA000 ≤ 0xA000 ∧ 0xA000 ≤ 0xBFFF) ∧ (sysRtc 8 0).gb.ramEnabled = true ∧
      (8 ≤ (sysRtc 8 0).gb.currentRamBank ∧ (sysRtc 8 0).gb.currentRamBank ≤ 12)) ∧
    ((Event.writeClockStruct ∈ emitted (sysRtc 8 0) (m3w storeExt 0xA000 5 (sysRtc 8 0)) ↔
        5 ≠ rtcRegister (sysRtc 8 0).gb) ∧
     (5 = rtcRegister (sysRtc 8 0).gb → m3w storeExt 0xA000 5 (sysRtc 8 0) = sysRtc 8 0) ∧
     (∀ a x, Event.writeSram a x ∉ emitted (sysRtc 8 0) (m3w storeExt 0xA000 5 (sysRtc 8 0)))) :=
  ⟨by decide,
   C4_rtc_persists_iff_changed storeExt 0xA000 5 (sysRtc 8 0) (by decide) (by decide)
     (by decide)⟩

/-- C5, as stated, fails when the register already holds the value: two writes of 0
to the seconds register, which holds 0, call `writeClockStruct` not once but never. -/
theorem C5_no_call_when_already_stored :
    (emitted (sysRtc 8 0)
      (m3w storeExt 0xA000 0 (m3w storeExt 0xA000 0 (sysRtc 8 0)))).count
        Event.writeClockStruct = 0 := by
  decide

/-- C5, amended: on MBC3 with RAM enabled and a clock register selected, two
consecutive writes of the byte `v` to the window `0xA000 - 0xBFFF` call
`writeClockStruct` exactly once in total when `v` differs from the register value
before the first write, and not at all when it equals it; in both cases the second
write changes nothing. -/
theorem C5_rtc_second_write_idle (E : Ext) (a1 a2 v : Nat) (s : Sys) (hv : v < 256)
    (h1 : 0xA000 ≤ a1 ∧ a1 ≤ 0xBFFF) (h2 : 0xA000 ≤ a2 ∧ a2 ≤ 0xBFFF)
    (hr : s.gb.ramEnabled = true)
    (hb : 8 ≤ s.gb.currentRamBank ∧ s.gb.currentRamBank ≤ 12) :
    m3w E a2 v (m3w E a1 v s) = m3w E a1 v s ∧
    (emitted s (m3w E a2 v (m3w E a1 v s))).count Event.writeClockStruct =
      (if v = rtcRegister s.gb then 0 else 1) := by
  rw [m3w_ram_window E a1 v s h1 hr]
  obtain ⟨hr1, hb1, hreg⟩ := rtc_after_write E a1 v s hv hb
  have hsecond : m3w E a2 v (rtcWrite E a1 v s) = rtcWrite E a1 v s := by
    rw [m3w_ram_window E a2 v _ h2 (hr1.trans hr)]
    exact (rtc_write_spec E a2 v _ (hb1 ▸ hb)).2.1 hreg.symm
  rw [hsecond]
  exact ⟨rfl, (rtc_write_spec E a1 v s hb).2.2.2⟩

/-- Witness of C5 (amended): two writes of 7 to the day-low register. -/
theorem C5_rtc_second_write_idle_witness :
    ((7 < 256) ∧ (0xA000 ≤ 0xA000 ∧ 0xA000 ≤ 0xBFFF) ∧ (0xA000 ≤ 0xB123 ∧ 0xB123 ≤ 0xBFFF) ∧
      (sysRtc 0xB 0x100).gb.ramEnabled = true ∧
      (8 ≤ (sysRtc 0xB 0x100).gb.currentRamBank ∧ (sysRtc 0xB 0x100).gb.currentRamBank ≤ 12)) ∧
    (m3w storeExt 0xB123 7 (m3w storeExt 0xA000 7 (sysRtc 0xB 0x100)) =
        m3w storeExt 0xA000 7 (sysRtc 0xB 0x100) ∧
     (emitted (sysRtc 0xB 0x100)
        (m3w storeExt 0xB123 7 (m3w storeExt 0xA000 7 (sysRtc 0xB 0x100)))).count
          Event.writeClockStruct =
       (if 7 = rtcRegister (sysRtc 0xB 0x100).gb then 0 else 1)) :=
  ⟨by decide,
   C5_rtc_second_write_idle storeExt 0xA000 0xB123 7 (sysRtc 0xB 0x100) (by decide)
     (by decide) (by decide) (by decide) (by decide)⟩

/-- C6, as stated, fails in part (b): with control byte 0 and day counter `0x100`, a
write of 0 to the control register (selector `0xC`) is dropped as unchanged, and bit
8 of the day counter stays 1 although `0 & 1 = 0`. -/
theorem C6_ctrl_write_dropped_keeps_high_bit :
    dayHigh (m3w storeExt 0xA000 0 (sysRtc 0xC 0x100)).gb.gbClock.mbc3.d = 1 ∧
    dayHigh (m3w storeExt 0xA000 0 (sysRtc 0xC 0x100)).gb.gbClock.mbc3.d ≠ 0 &&& 1 := by
  decide

theorem rtcWrite_day_low (E : Ext) (addr v : Nat) (s : Sys) (hv : v < 256)
    (hb : s.gb.currentRamBank = 0xB) :
    (rtcWrite E addr v s).gb.gbClock.mbc3.d &&& 0xFF = v ∧
    dayHigh (rtcWrite E addr v s).gb.gbClock.mbc3.d = dayHigh s.gb.gbClock.mbc3.d := by
  simp only [rtcWrite, hb]
  split_ifs with hc
  · simp only [writeClockStruct_frame, setMbc3, dayHigh]
    exact ⟨day_low_after_low _ _ hv, day_high_after_low _ _ hv⟩
  · simp only [ne_eq, not_not] at hc
    simp [hc]

theorem rtcWrite_ctrl (E : Ext) (addr v : Nat) (s : Sys)
    (hb : s.gb.currentRamBank = 0xC) :
    (rtcWrite E addr v s).gb.gbClock.mbc3.d &&& 0xFF = s.gb.gbClock.mbc3.d &&& 0xFF ∧
    (v ≠ s.gb.gbClock.mbc3.ctrl ∨ dayHigh s.gb.gbClock.mbc3.d = s.gb.gbClock.mbc3.ctrl &&& 1 →
      dayHigh (rtcWrite E addr v s).gb.gbClock.mbc3.d = v &&& 1) ∧
    (v = s.gb.gbClock.mbc3.ctrl → rtcWrite E addr v s = s) := by
  simp only [rtcWrite, hb]
  split_ifs with hc
  · simp only [writeClockStruct_frame, setMbc3, dayHigh]
    exact ⟨day_low_after_ctrl _ _, fun _ => day_high_after_ctrl _ _,
      fun h => absurd h.symm hc⟩
  · simp only [ne_eq, not_not] at hc
    simp [hc]

/-- C6, amended: on MBC3 with RAM enabled, for a byte `v` written to the window
`0xA000 - 0xBFFF`: (a) with register `0xB` selected the low byte of the day counter
becomes `v` and bit 8 of the day counter is unchanged; (b) with register `0xC`
selected the low byte of the day counter is unchanged, and bit 8 of the day counter
becomes `v & 1` whenever `v` differs from the current control byte or bit 8 already
equals bit 0 of the control byte; a write of `v` equal to the control byte changes
nothing. -/
theorem C6_day_counter_split (E : Ext) (addr v : Nat) (s : Sys) (hv : v < 256)
    (ha : 0xA000 ≤ addr ∧ addr ≤ 0xBFFF) (hr : s.gb.ramEnabled = true) :
    (s.gb.currentRamBank = 0xB →
      (m3w E addr v s).gb.gbClock.mbc3.d &&& 0xFF = v ∧
      dayHigh (m3w E addr v s).gb.gbClock.mbc3.d = dayHigh s.gb.gbClock.mbc3.d) ∧
    (s.gb.currentRamBank = 0xC →
      (m3w E addr v s).gb.gbClock.mbc3.d &&& 0xFF = s.gb.gbClock.mbc3.d &&& 0xFF ∧
      (v ≠ s.gb.gbClock.mbc3.ctrl ∨
          dayHigh s.gb.gbClock.mbc3.d = s.gb.gbClock.mbc3.ctrl &&& 1 →
        dayHigh (m3w E addr v s).gb.gbClock.mbc3.d = v &&& 1) ∧
      (v = s.gb.gbClock.mbc3.ctrl → m3w E addr v s = s)) := by
  rw [m3w_ram_window E addr v s ha hr]
  exact ⟨rtcWrite_day_low E addr v s hv, rtcWrite_ctrl E addr v s⟩

/-- Witness of C6 (amended): a write of 1 to the control register, which holds 0,
with day counter `0x0FF`. -/
theorem C6_day_counter_split_witness :
    ((1 < 256) ∧ (0xA000 ≤ 0xA000 ∧ 0xA000 ≤ 0xBFFF) ∧ (sysRtc 0xC 0xFF).gb.ramEnabled = true) ∧
    (((sysRtc 0xC 0xFF).gb.currentRamBank = 0xB →
      (m3w storeExt 0xA000 1 (sysRtc 0xC 0xFF)).gb.gbClock.mbc3.d &&& 0xFF = 1 ∧
      dayHigh (m3w storeExt 0xA000 1 (sysRtc 0xC 0xFF)).gb.gbClock.mbc3.d =
        dayHigh (sysRtc 0xC 0xFF).gb.gbClock.mbc3.d) ∧
     ((sysRtc 0xC 0xFF).gb.currentRamBank = 0xC →
      (m3w storeExt 0xA000 1 (sysRtc 0xC 0xFF)).gb.gbClock.mbc3.d &&& 0xFF =
        (sysRtc 0xC 0xFF).gb.gbClock.mbc3.d &&& 0xFF ∧
      (1 ≠ (sysRtc 0xC 0xFF).gb.gbClock.mbc3.ctrl ∨
          dayHigh (sysRtc 0xC 0xFF).gb.gbClock.mbc3.d =
            (sysRtc 0xC 0xFF).gb.gbClock.mbc3.ctrl &&& 1 →
        dayHigh (m3w storeExt 0xA000 1 (sysRtc 0xC 0xFF)).gb.gbClock.mbc3.d = 1 &&& 1) ∧
      (1 = (sysRtc 0xC 0xFF).gb.gbClock.mbc3.ctrl →
        m3w storeExt 0xA000 1 (sysRtc 0xC 0xFF) = sysRtc 0xC 0xFF))) :=
  ⟨by decide,
   C6_day_counter_split storeExt 0xA000 1 (sysRtc 0xC 0xFF) (by decide) (by decide)
     (by decide)⟩

theorem m3w_latch_window (E : Ext) (addr v : Nat) (s : Sys)
    (ha : 0x6000 ≤ addr ∧ addr ≤ 0x7FFF) :
    m3w E addr v s = if v ≠ 0 then callLatchClock E s else s := by
  rcases window_67 addr ha with h | h <;> simp [m3w, h]

theorem m3w_latch_trace (E : Ext) (ws : List (Nat × Nat)) :
    ∀ s : Sys, (∀ w ∈ ws, 0x6000 ≤ w.1 ∧ w.1 ≤ 0x7FFF) →
      ∃ l, (writes (m3w E) ws s).trace = s.trace ++ l ∧
        l.count Event.latchClock = ws.countP (fun w => w.2 ≠ 0) := by
  induction ws with
  | nil => intro s _; exact ⟨[], by simp [writes]⟩
  | cons w ws ih =>
    intro s hw
    have hw1 := hw w (List.mem_cons_self _ _)
    have hws : ∀ x ∈ ws, 0x6000 ≤ x.1 ∧ x.1 ≤ 0x7FFF :=
      fun x hx => hw x (List.mem_cons_of_mem _ hx)
    obtain ⟨l, hl, hc⟩ := ih (m3w E w.1 w.2 s) hws
    have hstep : writes (m3w E) (w :: ws) s = writes (m3w E) ws (m3w E w.1 w.2 s) := rfl
    rw [hstep, hl, m3w_latch_window E w.1 w.2 s hw1]
    by_cases hv : w.2 = 0
    · exact ⟨l, by simp [hv], by simp [hv, hc]⟩
    · exact ⟨Event.latchClock :: l, by simp [hv, callLatchClock],
        by simp [hv, hc]⟩

/-! ## C7: the MBC3 clock latch -/

/-- C7, as stated, fails: two consecutive writes of 1 to `0x6000`, with no write of
0 between them, call `latchClock` twice. -/
theorem C7_two_nonzero_writes_latch_twice :
    (emitted sys0 (m3w storeExt 0x6000 1 (m3w storeExt 0x6000 1 sys0))).count
      Event.latchClock = 2 := by
  decide

/-- C7, amended: on MBC3 the clock latch is level-triggered.  Every write of a
nonzero value to `0x6000 - 0x7FFF` calls `latchClock` once, whatever the write
before it was, and a write of 0 calls nothing and changes nothing; so over every
sequence of writes to that window the number of `latchClock` calls is the number of
nonzero values written. -/
theorem C7_latch_on_every_nonzero_write (E : Ext) (addr v : Nat)
    (ws : List (Nat × Nat)) (s : Sys) (ha : 0x6000 ≤ addr ∧ addr ≤ 0x7FFF)
    (hw : ∀ w ∈ ws, 0x6000 ≤ w.1 ∧ w.1 ≤ 0x7FFF) :
    m3w E addr v s = (if v ≠ 0 then callLatchClock E s else s) ∧
    (emitted s (writes (m3w E) ws s)).count Event.latchClock =
      ws.countP (fun w => w.2 ≠ 0) := by
  refine ⟨m3w_latch_window E addr v s ha, ?_⟩
  obtain ⟨l, hl, hc⟩ := m3w_latch_trace E ws s hw
  simp [emitted, hl, hc]

/-- Witness of C7 (amended): the writes 1, 1, 0, 1 to the latch window. -/
theorem C7_latch_on_every_nonzero_write_witness :
    ((0x6000 ≤ 0x7ABC ∧ 0x7ABC ≤ 0x7FFF) ∧
      (∀ w ∈ [(0x6000, 1), (0x6000, 1), (0x7000, 0), (0x6001, 1)],
        0x6000 ≤ w.1 ∧ w.1 ≤ 0x7FFF)) ∧
    (m3w storeExt 0x7ABC 1 sys0 = (if 1 ≠ 0 then callLatchClock storeExt sys0 else sys0) ∧
     (emitted sys0 (writes (m3w storeExt)
        [(0x6000, 1), (0x6000, 1), (0x7000, 0), (0x6001, 1)] sys0)).count Event.latchClock =
       [(0x6000, 1), (0x6000, 1), (0x7000, 0), (0x6001, 1)].countP (fun w => w.2 ≠ 0)) :=
  ⟨by decide,
   C7_latch_on_every_nonzero_write storeExt 0x7ABC 1
     [(0x6000, 1), (0x6000, 1), (0x7000, 0), (0x6001, 1)] sys0 (by decide) (by decide)⟩

/-! ## C8: the HuC3 read sequence -/

theorem high_nibble_one (c : Nat) (h : 0x10 ≤ c ∧ c ≤ 0x1F) : c &&& 0xf0 = 0x10 := by
  obtain ⟨h1, h2⟩ := h
  interval_cases c <;> rfl

theorem huc3_read (E : Ext) (c : Nat) (s : Sys) (hc : 0x10 ≤ c ∧ c ≤ 0x1F)
    (hs : s.gb.HuC3Shift ≤ 24) :
    handleHuC3Command E c s =
      { s with gb := { s.gb with
          HuC3Value :=
            (match s.gb.HuC3Shift with
             | 0 | 4 | 8 => (s.gb.gbClock.huc3.m >>> s.gb.HuC3Shift) &&& 0xf
             | 12 | 16 | 20 => (s.gb.gbClock.huc3.d >>> (s.gb.HuC3Shift - 12)) &&& 0xf
             | 24 => s.gb.gbClock.huc3.y &&& 0xf
             | _ => s.gb.HuC3Value),
          HuC3Shift := s.gb.HuC3Shift + 4 } } := by
  unfold handleHuC3Command
  rw [high_nibble_one c hc]
  simp only []
  rw [if_neg (by omega)]

/-- C8: for every HuC3 clock state and every four command bytes with high nibble 1,
running `handleHuC3Command` four times from `HuC3Shift = 0` sets `HuC3Value` in turn
to `(m >> 0) & 0xF`, `(m >> 4) & 0xF`, `(m >> 8) & 0xF` of the minutes field and then
to `(d >> 0) & 0xF` of the day field, and leaves `HuC3Shift = 16`. -/
theorem C8_huc3_read_sequence (E : Ext) (c1 c2 c3 c4 : Nat) (s : Sys)
    (h1 : 0x10 ≤ c1 ∧ c1 ≤ 0x1F) (h2 : 0x10 ≤ c2 ∧ c2 ≤ 0x1F)
    (h3 : 0x10 ≤ c3 ∧ c3 ≤ 0x1F) (h4 : 0x10 ≤ c4 ∧ c4 ≤ 0x1F)
    (h0 : s.gb.HuC3Shift = 0) :
    (handleHuC3Command E c1 s).gb.HuC3Value = (s.gb.gbClock.huc3.m >>> 0) &&& 0xF ∧
    (handleHuC3Command E c2 (handleHuC3Command E c1 s)).gb.HuC3Value =
      (s.gb.gbClock.huc3.m >>> 4) &&& 0xF ∧
    (handleHuC3Command E c3 (handleHuC3Command E c2
      (handleHuC3Command E c1 s))).gb.HuC3Value = (s.gb.gbClock.huc3.m >>> 8) &&& 0xF ∧
    (handleHuC3Command E c4 (handleHuC3Command E c3 (handleHuC3Command E c2
      (handleHuC3Command E c1 s)))).gb.HuC3Value = (s.gb.gbClock.huc3.d >>> 0) &&& 0xF ∧
    (handleHuC3Command E c4 (handleHuC3Command E c3 (handleHuC3Command E c2
      (handleHuC3Command E c1 s)))).gb.HuC3Shift = 16 := by
  rw [huc3_read E c1 s h1 (by omega)]
  rw [huc3_read E c2 _ h2 (by simp [h0])]
  rw [huc3_read E c3 _ h3 (by simp [h0])]
  rw [huc3_read E c4 _ h4 (by simp [h0])]
  simp [h0]

/-- Witness of C8: the commands `0x10`, `0x1F`, `0x15`, `0x10` on the clock with
minutes `0x2A5` and days `0x16B`. -/
theorem C8_huc3_read_sequence_witness :
    ((0x10 ≤ 0x10 ∧ 0x10 ≤ 0x1F) ∧ (0x10 ≤ 0x1F ∧ 0x1F ≤ 0x1F) ∧ (0x10 ≤ 0x15 ∧ 0x15 ≤ 0x1F) ∧
      (0x10 ≤ 0x10 ∧ 0x10 ≤ 0x1F) ∧ sysHuC3.gb.HuC3Shift = 0) ∧
    ((handleHuC3Command storeExt 0x10 sysHuC3).gb.HuC3Value =
        (sysHuC3.gb.gbClock.huc3.m >>> 0) &&& 0xF ∧
     (handleHuC3Command storeExt 0x1F (handleHuC3Command storeExt 0x10 sysHuC3)).gb.HuC3Value =
        (sysHuC3.gb.gbClock.huc3.m >>> 4) &&& 0xF ∧
     (handleHuC3Command storeExt 0x15 (handleHuC3Command storeExt 0x1F
        (handleHuC3Command storeExt 0x10 sysHuC3))).gb.HuC3Value =
        (sysHuC3.gb.gbClock.huc3.m >>> 8) &&& 0xF ∧
     (handleHuC3Command storeExt 0x10 (handleHuC3Command storeExt 0x15
        (handleHuC3Command storeExt 0x1F
          (handleHuC3Command storeExt 0x10 sysHuC3)))).gb.HuC3Value =
        (sysHuC3.gb.gbClock.huc3.d >>> 0) &&& 0xF ∧
     (handleHuC3Command storeExt 0x10 (handleHuC3Command storeExt 0x15
        (handleHuC3Command storeExt 0x1F
          (handleHuC3Command storeExt 0x10 sysHuC3)))).gb.HuC3Shift = 16) :=
  ⟨by decide,
   C8_huc3_read_sequence storeExt 0x10 0x1F 0x15 0x10 sysHuC3 (by decide) (by decide)
     (by decide) (by decide) (by decide)⟩

/-! ## C9: rumble debouncing -/

theorem and_f_and_8 (v : Nat) : (v &&& 0xf) &&& 0x8 = v &&& 0x8 := by
  rw [Nat.and_assoc]; rfl

theorem and_f_and_7 (v : Nat) : (v &&& 0xf) &&& 0x07 = v &&& 0x07 := by
  rw [Nat.and_assoc]; rfl

theorem m5w_rumble_window (E : Ext) (addr v : Nat) (s : Sys)
    (ha : 0x4000 ≤ addr ∧ addr ≤ 0x5FFF) : m5w E addr v s = rumbleRamBank E v s := by
  rcases window_45 addr ha with h | h <;> simp [m5w, h]

theorem m7w_rumble_window (E : Ext) (addr v : Nat) (s : Sys)
    (ha : 0x4000 ≤ addr ∧ addr ≤ 0x5FFF) : m7w E addr v s = rumbleRamBank E v s := by
  rcases window_45 addr ha with h | h <;> simp [m7w, h]

theorem rumble_trace (E : Ext) (v : Nat) (s : Sys)
    (hc : s.gb.hasRumble = true) (hs : s.gb.rumbleStrength ≠ 0)
    (hi : s.gb.rumbleInserted = true) :
    (rumbleRamBank E v s).trace =
      s.trace ++ ((if bit3 v ≠ s.gb.lastRumbleValue then [Event.doRumble (bit3 v)] else []) ++
        [Event.refreshRamBank (v &&& 0x07)]) := by
  unfold rumbleRamBank
  simp only [hc, hs, hi, and_f_and_8, and_f_and_7, if_true, ne_eq, not_false_eq_true, bit3]
  split_ifs <;> simp [callRefreshRamBank, Sys.emit]

theorem rumble_frame (E : Ext) (hE : RumbleFrame E) (v : Nat) (s : Sys)
    (hc : s.gb.hasRumble = true) (hs : s.gb.rumbleStrength ≠ 0)
    (hi : s.gb.rumbleInserted = true) :
    (rumbleRamBank E v s).gb.hasRumble = true ∧
    (rumbleRamBank E v s).gb.rumbleStrength ≠ 0 ∧
    (rumbleRamBank E v s).gb.rumbleInserted = true ∧
    (rumbleRamBank E v s).gb.lastRumbleValue = bit3 v := by
  unfold rumbleRamBank
  simp only [hc, hs, hi, and_f_and_8, and_f_and_7, if_true, ne_eq, not_false_eq_true, bit3]
  split_ifs with h1 h2 <;> simp_all [callRefreshRamBank, Sys.emit, hE _ _]


theorem rumble_emitted (E : Ext) (v : Nat) (s : Sys)
    (hc : s.gb.hasRumble = true) (hs : s.gb.rumbleStrength ≠ 0)
    (hi : s.gb.rumbleInserted = true) :
    emitted s (rumbleRamBank E v s) =
      (if bit3 v ≠ s.gb.lastRumbleValue then [Event.doRumble (bit3 v)] else []) ++
        [Event.refreshRamBank (v &&& 0x07)] := by
  simp [emitted, rumble_trace E v s hc hs hi]

theorem rumble_four (E : Ext) (hE : RumbleFrame E) (v1 v2 v3 v4 : Nat) (s : Sys)
    (hc : s.gb.hasRumble = true) (hs : s.gb.rumbleStrength ≠ 0)
    (hi : s.gb.rumbleInserted = true) (hl : s.gb.lastRumbleValue = 0)
    (b1 : v1 &&& 0x8 ≠ 0) (b2 : v2 &&& 0x8 ≠ 0) (b3 : v3 &&& 0x8 = 0) (b4 : v4 &&& 0x8 ≠ 0) :
    emitted s (rumbleRamBank E v4 (rumbleRamBank E v3 (rumbleRamBank E v2
      (rumbleRamBank E v1 s)))) =
      [Event.doRumble 1, Event.refreshRamBank (v1 &&& 0x7),
       Event.refreshRamBank (v2 &&& 0x7),
       Event.doRumble 0, Event.refreshRamBank (v3 &&& 0x7),
       Event.doRumble 1, Event.refreshRamBank (v4 &&& 0x7)] := by
  have e1 : bit3 v1 = 1 := by simp [bit3, b1]
  have e2 : bit3 v2 = 1 := by simp [bit3, b2]
  have e3 : bit3 v3 = 0 := by simp [bit3, b3]
  have e4 : bit3 v4 = 1 := by simp [bit3, b4]
  obtain ⟨c1, s1, i1, l1⟩ := rumble_frame E hE v1 s hc hs hi
  have t1 := rumble_trace E v1 s hc hs hi
  obtain ⟨c2, s2, i2, l2⟩ := rumble_frame E hE v2 _ c1 s1 i1
  have t2 := rumble_trace E v2 _ c1 s1 i1
  obtain ⟨c3, s3, i3, l3⟩ := rumble_frame E hE v3 _ c2 s2 i2
  have t3 := rumble_trace E v3 _ c2 s2 i2
  have t4 := rumble_trace E v4 _ c3 s3 i3
  rw [l3, t3, l2, t2, l1, t1, hl] at t4
  rw [emitted, t4]
  simp [e1, e2, e3, e4]

/-- C9: on MBC5 and MBC7 with a rumble-capable cartridge, nonzero `rumbleStrength`
and a rumble device inserted, a write to `0x4000 - 0x5FFF` calls `doRumble` exactly
when the bit-3 value of the written byte differs from `lastRumbleValue`, with that
value as argument, before the RAM bank request.  Hence, from an idle motor
(`lastRumbleValue = 0`) and with a `refreshRamBank` that leaves the rumble state
alone, four writes whose bit 3 is set, set, clear, set call `doRumble 1` in the
first, nothing in the second, `doRumble 0` in the third and `doRumble 1` in the
fourth. -/
theorem C9_rumble_debounce (E : Ext) (hE : RumbleFrame E)
    (a1 a2 a3 a4 v1 v2 v3 v4 : Nat) (s : Sys)
    (h1 : 0x4000 ≤ a1 ∧ a1 ≤ 0x5FFF) (h2 : 0x4000 ≤ a2 ∧ a2 ≤ 0x5FFF)
    (h3 : 0x4000 ≤ a3 ∧ a3 ≤ 0x5FFF) (h4 : 0x4000 ≤ a4 ∧ a4 ≤ 0x5FFF)
    (hc : s.gb.hasRumble = true) (hs : s.gb.rumbleStrength ≠ 0)
    (hi : s.gb.rumbleInserted = true) (hl : s.gb.lastRumbleValue = 0)
    (b1 : v1 &&& 0x8 ≠ 0) (b2 : v2 &&& 0x8 ≠ 0) (b3 : v3 &&& 0x8 = 0) (b4 : v4 &&& 0x8 ≠ 0) :
    emitted s (m5w E a4 v4 (m5w E a3 v3 (m5w E a2 v2 (m5w E a1 v1 s)))) =
      [Event.doRumble 1, Event.refreshRamBank (v1 &&& 0x7),
       Event.refreshRamBank (v2 &&& 0x7),
       Event.doRumble 0, Event.refreshRamBank (v3 &&& 0x7),
       Event.doRumble 1, Event.refreshRamBank (v4 &&& 0x7)] ∧
    emitted s (m7w E a4 v4 (m7w E a3 v3 (m7w E a2 v2 (m7w E a1 v1 s)))) =
      [Event.doRumble 1, Event.refreshRamBank (v1 &&& 0x7),
       Event.refreshRamBank (v2 &&& 0x7),
       Event.doRumble 0, Event.refreshRamBank (v3 &&& 0x7),
       Event.doRumble 1, Event.refreshRamBank (v4 &&& 0x7)] ∧
    (∀ (t : Sys) (a v : Nat), 0x4000 ≤ a ∧ a ≤ 0x5FFF → t.gb.hasRumble = true →
      t.gb.rumbleStrength ≠ 0 → t.gb.rumbleInserted = true →
      emitted t (m5w E a v t) =
        (if bit3 v ≠ t.gb.lastRumbleValue then [Event.doRumble (bit3 v)] else []) ++
          [Event.refreshRamBank (v &&& 0x07)] ∧
      emitted t (m7w E a v t) =
        (if bit3 v ≠ t.gb.lastRumbleValue then [Event.doRumble (bit3 v)] else []) ++
          [Event.refreshRamBank (v &&& 0x07)]) := by
  refine ⟨?_, ?_, ?_⟩
  · rw [m5w_rumble_window E a1 v1 s h1, m5w_rumble_window E a2 v2 _ h2,
      m5w_rumble_window E a3 v3 _ h3, m5w_rumble_window E a4 v4 _ h4]
    exact rumble_four E hE v1 v2 v3 v4 s hc hs hi hl b1 b2 b3 b4
  · rw [m7w_rumble_window E a1 v1 s h1, m7w_rumble_window E a2 v2 _ h2,
      m7w_rumble_window E a3 v3 _ h3, m7w_rumble_window E a4 v4 _ h4]
    exact rumble_four E hE v1 v2 v3 v4 s hc hs hi hl b1 b2 b3 b4
  · intro t a v ha tc ts ti
    rw [m5w_rumble_window E a v t ha, m7w_rumble_window E a v t ha]
    exact ⟨rumble_emitted E v t tc ts ti, rumble_emitted E v t tc ts ti⟩

/-- Witness of C9: the writes `0x08`, `0x0B`, `0x03`, `0x09` on a rumble cartridge
with the motor idle. -/
theorem C9_rumble_debounce_witness :
    (RumbleFrame storeExt ∧
      (0x4000 ≤ 0x4000 ∧ 0x4000 ≤ 0x5FFF) ∧ (0x4000 ≤ 0x4001 ∧ 0x4001 ≤ 0x5FFF) ∧
      (0x4000 ≤ 0x5000 ∧ 0x5000 ≤ 0x5FFF) ∧ (0x4000 ≤ 0x5FFF ∧ 0x5FFF ≤ 0x5FFF) ∧
      sysRumble.gb.hasRumble = true ∧ sysRumble.gb.rumbleStrength ≠ 0 ∧
      sysRumble.gb.rumbleInserted = true ∧ sysRumble.gb.lastRumbleValue = 0 ∧
      0x08 &&& 0x8 ≠ 0 ∧ 0x0B &&& 0x8 ≠ 0 ∧ 0x03 &&& 0x8 = 0 ∧ 0x09 &&& 0x8 ≠ 0) ∧
    emitted sysRumble (m5w storeExt 0x5FFF 0x09 (m5w storeExt 0x5000 0x03
      (m5w storeExt 0x4001 0x0B (m5w storeExt 0x4000 0x08 sysRumble)))) =
      [Event.doRumble 1, Event.refreshRamBank (0x08 &&& 0x7),
       Event.refreshRamBank (0x0B &&& 0x7),
       Event.doRumble 0, Event.refreshRamBank (0x03 &&& 0x7),
       Event.doRumble 1, Event.refreshRamBank (0x09 &&& 0x7)] :=
  ⟨⟨fun _ _ => ⟨rfl, rfl, rfl, rfl⟩, by decide⟩,
   (C9_rumble_debounce storeExt (fun _ _ => ⟨rfl, rfl, rfl, rfl⟩)
     0x4000 0x4001 0x5000 0x5FFF 0x08 0x0B 0x03 0x09 sysRumble
     (by decide) (by decide) (by decide) (by decide) (by decide) (by decide) (by decide)
     (by decide) (by decide) (by decide) (by decide) (by decide)).1⟩

/-! ## C10: the RAM window without RAM banks -/

/-- C10, as stated, fails on MBC3 and on HuC3.  With `numRamBanks = 0`, an MBC3 write
of 5 to `0xA000` with the seconds register selected stores 5 in it and calls
`writeClockStruct`; a HuC3 write of the command `0x10` in mode `0xB` advances
`HuC3Shift` from 0 to 4. -/
theorem C10_clock_paths_ignore_bank_count :
    ((sysRtc 8 0).gb.numRamBanks = 0 ∧ (sysRtc 8 0).gb.gbClock.mbc3.s = 0 ∧
      (m3w storeExt 0xA000 5 (sysRtc 8 0)).gb.gbClock.mbc3.s = 5 ∧
      emitted (sysRtc 8 0) (m3w storeExt 0xA000 5 (sysRtc 8 0)) = [Event.writeClockStruct]) ∧
    (sysHuC3.gb.numRamBanks = 0 ∧ sysHuC3.gb.HuC3Shift = 0 ∧
      (h3w storeExt 0xA000 0x10 sysHuC3).gb.HuC3Shift = 4) := by
  decide

theorem sramWrite_no_banks (E : Ext) (addr v : Nat) (s : Sys) (hn : s.gb.numRamBanks = 0) :
    sramWrite E addr v s = s := by
  simp [sramWrite, hn]

theorem rtcWrite_unselected (E : Ext) (addr v : Nat) (s : Sys) (hn : s.gb.numRamBanks = 0)
    (hb : ¬ (8 ≤ s.gb.currentRamBank ∧ s.gb.currentRamBank ≤ 12)) :
    rtcWrite E addr v s = s := by
  unfold rtcWrite
  split
  all_goals first | (exfalso; omega) | simp [hn]

theorem rtcWrite_idle_iff (E : Ext) (addr v : Nat) (s : Sys)
    (hb : 8 ≤ s.gb.currentRamBank ∧ s.gb.currentRamBank ≤ 12) :
    rtcWrite E addr v s = s ↔ v = rtcRegister s.gb := by
  constructor
  · intro h
    by_contra hne
    have hmem := (rtc_write_spec E addr v s hb).1.mpr hne
    rw [h] at hmem
    simp at hmem
  · exact rtc_write_same E addr v s hb

/-- C10, amended: with `numRamBanks = 0`, a write to `0xA000 - 0xBFFF` leaves the
whole machine, trace included, as it was on the plain mapper, MBC1, MBC2, MBC5, MBC7
and HuC1 (whatever `ramEnabled` is), on MBC3 unless RAM is enabled and a clock
register is selected (`currentRamBank` in 8..12), and on HuC3 unless `HuC3Mode` is
`0xB`.  On MBC3 with RAM enabled and a clock register selected the write is idle
exactly when the value equals the selected register, and on HuC3 in mode `0xB` it is
the command `handleHuC3Command`. -/
theorem C10_no_ram_banks_write_idle (E : Ext) (addr v : Nat) (s : Sys)
    (ha : 0xA000 ≤ addr ∧ addr ≤ 0xBFFF) (hn : s.gb.numRamBanks = 0) :
    m0w E addr v s = s ∧ m1w E addr v s = s ∧ m2w E addr v s = s ∧
    m5w E addr v s = s ∧ m7w E addr v s = s ∧ h1w E addr v s = s ∧
    (¬ (s.gb.ramEnabled = true ∧ 8 ≤ s.gb.currentRamBank ∧ s.gb.currentRamBank ≤ 12) →
      m3w E addr v s = s) ∧
    (s.gb.ramEnabled = true ∧ 8 ≤ s.gb.currentRamBank ∧ s.gb.currentRamBank ≤ 12 →
      (m3w E addr v s = s ↔ v = rtcRegister s.gb)) ∧
    (s.gb.HuC3Mode ≠ 0xB → h3w E addr v s = s) ∧
    (s.gb.HuC3Mode = 0xB → h3w E addr v s = handleHuC3Command E v s) := by
  have hsram := sramWrite_no_banks E addr v s hn
  have hsram2 := sramWrite_no_banks E addr (v &&& 0xf) s hn
  refine ⟨?_, ?_, ?_, ?_, ?_, ?_, ?_, ?_, ?_, ?_⟩
  · rcases window_ab addr ha with h | h <;> simp [m0w, h, hn]
  · rcases window_ab addr ha with h | h <;> simp [m1w, h, hsram]
  · rcases window_ab addr ha with h | h <;> simp [m2w, h, hsram2]
  · rcases window_ab addr ha with h | h <;> simp [m5w, h, hsram]
  · rcases window_ab addr ha with h | h <;> simp [m7w, h, hsram]
  · rcases window_ab addr ha with h | h <;> simp [h1w, h, hsram]
  · intro hsel
    by_cases hr : s.gb.ramEnabled = true
    · rw [m3w_ram_window E addr v s ha hr]
      exact rtcWrite_unselected E addr v s hn (fun hb => hsel ⟨hr, hb⟩)
    · rcases window_ab addr ha with h | h <;> simp [m3w, h, hr]
  · intro hsel
    rw [m3w_ram_window E addr v s ha hsel.1]
    exact rtcWrite_idle_iff E addr v s hsel.2
  · intro hm
    rcases window_ab addr ha with h | h <;> simp only [h3w, h] <;> split <;>
      first | exact absurd (by assumption) hm | rfl | exact hsram
  · intro hm
    rcases window_ab addr ha with h | h <;> simp [h3w, h, hm]

/-- Witness of C10 (amended): a write of `0x42` to `0xA000` with RAM enabled, RAM
bank 0 selected and no RAM banks. -/
theorem C10_no_ram_banks_write_idle_witness :
    ((0xA000 ≤ 0xA000 ∧ 0xA000 ≤ 0xBFFF) ∧ (sysRtc 0 0).gb.numRamBanks = 0) ∧
    (m0w storeExt 0xA000 0x42 (sysRtc 0 0) = sysRtc 0 0 ∧
     m1w storeExt 0xA000 0x42 (sysRtc 0 0) = sysRtc 0 0) :=
  ⟨by decide,
   (C10_no_ram_banks_write_idle storeExt 0xA000 0x42 (sysRtc 0 0) (by decide) (by decide)).1,
   (C10_no_ram_banks_write_idle storeExt 0xA000 0x42 (sysRtc 0 0) (by decide)
     (by decide)).2.1⟩

/-! ## C11: the gate on external RAM writes -/

/-- C11, as stated, fails on the plain mapper: with one RAM bank and `ramEnabled`
false, `m0w` writes `0x42` to external RAM at `0xA000`. -/
theorem C11_m0w_writes_with_ram_disabled :
    sysPlainRam.gb.ramEnabled = false ∧
    emitted sysPlainRam (m0w storeExt 0xA000 0x42 sysPlainRam) = [Event.writeSram 0 0x42] := by
  decide

theorem sramWrite_gate (E : Ext) (addr v a x : Nat) (s : Sys)
    (h : Event.writeSram a x ∈ emitted s (sramWrite E addr v s)) :
    s.gb.ramEnabled = true ∧ 0 < s.gb.numRamBanks := by
  rw [emitted_sramWrite] at h
  split_ifs at h with hc
  · exact ⟨hc.1, Nat.pos_of_ne_zero hc.2⟩
  · simp at h

theorem rtcWrite_gate (E : Ext) (addr v a x : Nat) (s : Sys)
    (h : Event.writeSram a x ∈ emitted s (rtcWrite E addr v s)) :
    0 < s.gb.numRamBanks := by
  unfold rtcWrite at h
  split at h
  all_goals
    dsimp only at h
    split_ifs at h with hc
    all_goals
      first
        | exact Nat.pos_of_ne_zero hc
        | (exfalso; simp at h; done)
        | (exfalso; rw [emitted_rtc_store] at h; split_ifs at h <;> simp at h)

theorem handleHuC3Command_no_sram (E : Ext) (c a x : Nat) (s : Sys) :
    Event.writeSram a x ∉ emitted s (handleHuC3Command E c s) := by
  rcases emitted_handleHuC3Command E c s with h | h | h <;> simp [h]

theorem rumbleRamBank_no_sram (E : Ext) (v a x : Nat) (s : Sys) :
    Event.writeSram a x ∉ emitted s (rumbleRamBank E v s) := by
  unfold rumbleRamBank
  dsimp only
  split_ifs <;> simp [emitted, callRefreshRamBank, Sys.emit]

/-- C11, amended: for the write handlers of MBC1, MBC2, MBC3, MBC5, MBC7, HuC1 and
HuC3, a write (to any address, so in particular to `0xA000 - 0xBFFF`) calls
`writeSram` only if `ramEnabled` is true and `numRamBanks > 0`; the plain mapper
`m0w` calls it only if `numRamBanks > 0`, whatever `ramEnabled` is. -/
theorem C11_sram_write_gated (E : Ext) (addr v : Nat) (s : Sys) (a x : Nat) :
    (Event.writeSram a x ∈ emitted s (m1w E addr v s) →
      s.gb.ramEnabled = true ∧ 0 < s.gb.numRamBanks) ∧
    (Event.writeSram a x ∈ emitted s (m2w E addr v s) →
      s.gb.ramEnabled = true ∧ 0 < s.gb.numRamBanks) ∧
    (Event.writeSram a x ∈ emitted s (m3w E addr v s) →
      s.gb.ramEnabled = true ∧ 0 < s.gb.numRamBanks) ∧
    (Event.writeSram a x ∈ emitted s (m5w E addr v s) →
      s.gb.ramEnabled = true ∧ 0 < s.gb.numRamBanks) ∧
    (Event.writeSram a x ∈ emitted s (m7w E addr v s) →
      s.gb.ramEnabled = true ∧ 0 < s.gb.numRamBanks) ∧
    (Event.writeSram a x ∈ emitted s (h1w E addr v s) →
      s.gb.ramEnabled = true ∧ 0 < s.gb.numRamBanks) ∧
    (Event.writeSram a x ∈ emitted s (h3w E addr v s) →
      s.gb.ramEnabled = true ∧ 0 < s.gb.numRamBanks) ∧
    (Event.writeSram a x ∈ emitted s (m0w E addr v s) → 0 < s.gb.numRamBanks) := by
  refine ⟨?_, ?_, ?_, ?_, ?_, ?_, ?_, ?_⟩
  · unfold m1w
    split
    all_goals
      first
        | exact sramWrite_gate E _ _ a x s
        | (simp [setRamEnabled]; done)
        | (dsimp only; split_ifs <;> simp)
  · unfold m2w
    split
    all_goals
      first
        | exact sramWrite_gate E _ _ a x s
        | (simp [setRamEnabled])
  · unfold m3w
    split
    all_goals
      first
        | (simp [setRamEnabled]; done)
        | (split_ifs with hr <;> first
            | (simp)
            | (intro h
               exact ⟨by simpa using hr, rtcWrite_gate E _ _ a x s h⟩))
  · unfold m5w
    split
    all_goals
      first
        | exact sramWrite_gate E _ _ a x s
        | (simp [setRamEnabled])
        | (intro h; exact absurd h (rumbleRamBank_no_sram E _ a x s))
  · unfold m7w
    split
    all_goals
      first
        | exact sramWrite_gate E _ _ a x s
        | (simp [setRamEnabled])
        | (intro h; exact absurd h (rumbleRamBank_no_sram E _ a x s))
  · unfold h1w
    split
    all_goals
      first
        | exact sramWrite_gate E _ _ a x s
        | (simp [setRamEnabled]; done)
        | (dsimp only; split_ifs <;> simp)
  · unfold h3w
    split
    all_goals
      first
        | (simp [setRamEnabled])
        | (split <;> first
            | exact sramWrite_gate E _ _ a x s
            | (simp)
            | (intro h; exact absurd h (handleHuC3Command_no_sram E _ a x s)))
  · unfold m0w
    split
    all_goals
      first
        | (simp; done)
        | (split_ifs with hn <;> first
            | (simp; done)
            | (intro _; exact Nat.pos_of_ne_zero hn))

/-- Witness of C11 (amended): the MBC1 write of `0x42` to `0xA000` with RAM enabled
and one RAM bank does call `writeSram`. -/
theorem C11_sram_write_gated_witness :
    Event.writeSram 0 0x42 ∈ emitted sysRamOn (m1w storeExt 0xA000 0x42 sysRamOn) ∧
    (sysRamOn.gb.ramEnabled = true ∧ 0 < sysRamOn.gb.numRamBanks) :=
  ⟨by decide, (C11_sram_write_gated storeExt 0xA000 0x42 sysRamOn 0 0x42).1 (by decide)⟩

/-! ## C12: the RAM bank request of a rumble cartridge -/

/-- C12, as stated, fails: on a rumble cartridge without a rumble device, writing
`0x08` to `0x4000` requests RAM bank 0 (`0x08 & 0x7`), not bank 8 (`0x08 & 0xF`), on
MBC5 and on MBC7. -/
theorem C12_bit3_stripped_without_device :
    (sysRumbleNoDevice.gb.hasRumble = true ∧ sysRumbleNoDevice.gb.rumbleInserted = false) ∧
    0x08 &&& 0xF = 8 ∧
    emitted sysRumbleNoDevice (m5w storeExt 0x4000 0x08 sysRumbleNoDevice) =
      [Event.refreshRamBank 0] ∧
    emitted sysRumbleNoDevice (m7w storeExt 0x4000 0x08 sysRumbleNoDevice) =
      [Event.refreshRamBank 0] := by
  decide

theorem rumbleRamBank_no_device (E : Ext) (v : Nat) (s : Sys)
    (hc : s.gb.hasRumble = true) (hi : s.gb.rumbleInserted = false) :
    emitted s (rumbleRamBank E v s) = [Event.refreshRamBank (v &&& 0x7)] := by
  unfold rumbleRamBank
  simp [hc, hi, and_f_and_7]

theorem rumbleRamBank_no_rumble (E : Ext) (v : Nat) (s : Sys)
    (hc : s.gb.hasRumble = false) :
    emitted s (rumbleRamBank E v s) = [Event.refreshRamBank (v &&& 0xF)] := by
  unfold rumbleRamBank
  simp [hc]

theorem rumbleRamBank_rumble (E : Ext) (v : Nat) (s : Sys) (hc : s.gb.hasRumble = true) :
    emitted s (rumbleRamBank E v s) =
      (if s.gb.rumbleStrength ≠ 0 ∧ s.gb.rumbleInserted = true ∧
          bit3 v ≠ s.gb.lastRumbleValue then [Event.doRumble (bit3 v)] else []) ++
        [Event.refreshRamBank (v &&& 0x7)] := by
  by_cases hs : s.gb.rumbleStrength = 0
  · have h0 : emitted s (rumbleRamBank E v s) = [Event.refreshRamBank (v &&& 0x7)] := by
      unfold rumbleRamBank
      simp [hc, hs, and_f_and_7]
    rw [h0, if_neg (fun h => h.1 hs)]
    rfl
  · cases hi : s.gb.rumbleInserted with
    | false =>
      rw [rumbleRamBank_no_device E v s hc hi, if_neg (fun h => by simp [hi] at h)]
      rfl
    | true =>
      rw [rumble_emitted E v s hc hs hi]
      by_cases hb : bit3 v ≠ s.gb.lastRumbleValue
      · rw [if_pos hb, if_pos ⟨hs, rfl, hb⟩]
      · rw [if_neg hb, if_neg (fun h => hb h.2.2)]

theorem ram_request_after_rumble (l : List Event) (x b : Nat)
    (hl : ∀ e ∈ l, ∃ r, e = Event.doRumble r) :
    Event.refreshRamBank b ∈ l ++ [Event.refreshRamBank x] ↔ b = x := by
  constructor
  · intro h
    rcases List.mem_append.mp h with h | h
    · obtain ⟨r, hr⟩ := hl _ h
      exact absurd hr (by simp)
    · simpa using h
  · intro h
    subst h
    simp

theorem rumbleRamBank_request (E : Ext) (v b : Nat) (s : Sys) (hc : s.gb.hasRumble = true) :
    Event.refreshRamBank b ∈ emitted s (rumbleRamBank E v s) ↔ b = v &&& 0x7 := by
  rw [rumbleRamBank_rumble E v s hc]
  apply ram_request_after_rumble
  intro e he
  split_ifs at he
  · exact ⟨bit3 v, by simpa using he⟩
  · simp at he

/-- C12, amended: on MBC5 and MBC7, whenever the cartridge declares rumble capability
(whatever `rumbleStrength` is, and whether or not a rumble device is inserted), a
write of `v` to `0x4000 - 0x5FFF` strips bit 3: the one RAM bank requested is
`v & 0x7`, after a `doRumble` call that is made only with nonzero strength, a device
inserted and a changed bit-3 value.  In particular, with no rumble device inserted
the write calls only `refreshRamBank(v & 0x7)`.  Bit 3 is forwarded (bank `v & 0xF`)
only when the cartridge declares no rumble capability. -/
theorem C12_ram_bank_of_rumble_cartridge (E : Ext) (addr v : Nat) (s : Sys)
    (ha : 0x4000 ≤ addr ∧ addr ≤ 0x5FFF) :
    (s.gb.hasRumble = true →
      emitted s (m5w E addr v s) =
        (if s.gb.rumbleStrength ≠ 0 ∧ s.gb.rumbleInserted = true ∧
            bit3 v ≠ s.gb.lastRumbleValue then [Event.doRumble (bit3 v)] else []) ++
          [Event.refreshRamBank (v &&& 0x7)] ∧
      emitted s (m7w E addr v s) =
        (if s.gb.rumbleStrength ≠ 0 ∧ s.gb.rumbleInserted = true ∧
            bit3 v ≠ s.gb.lastRumbleValue then [Event.doRumble (bit3 v)] else []) ++
          [Event.refreshRamBank (v &&& 0x7)] ∧
      (∀ b, Event.refreshRamBank b ∈ emitted s (m5w E addr v s) ↔ b = v &&& 0x7) ∧
      (∀ b, Event.refreshRamBank b ∈ emitted s (m7w E addr v s) ↔ b = v &&& 0x7)) ∧
    (s.gb.hasRumble = true → s.gb.rumbleInserted = false →
      emitted s (m5w E addr v s) = [Event.refreshRamBank (v &&& 0x7)] ∧
      emitted s (m7w E addr v s) = [Event.refreshRamBank (v &&& 0x7)]) ∧
    (s.gb.hasRumble = false →
      emitted s (m5w E addr v s) = [Event.refreshRamBank (v &&& 0xF)] ∧
      emitted s (m7w E addr v s) = [Event.refreshRamBank (v &&& 0xF)]) := by
  rw [m5w_rumble_window E addr v s ha, m7w_rumble_window E addr v s ha]
  exact ⟨fun hc => ⟨rumbleRamBank_rumble E v s hc, rumbleRamBank_rumble E v s hc,
      fun b => rumbleRamBank_request E v b s hc, fun b => rumbleRamBank_request E v b s hc⟩,
    fun hc hi => ⟨rumbleRamBank_no_device E v s hc hi, rumbleRamBank_no_device E v s hc hi⟩,
    fun hc => ⟨rumbleRamBank_no_rumble E v s hc, rumbleRamBank_no_rumble E v s hc⟩⟩

/-- Witness of C12 (amended): the write of `0x0F` to `0x5ABC` on a rumble cartridge
with a device inserted and strength 0 requests RAM bank 7 and calls nothing else. -/
theorem C12_ram_bank_of_rumble_cartridge_witness :
    ((0x4000 ≤ 0x5ABC ∧ 0x5ABC ≤ 0x5FFF) ∧ sysRumbleNoStrength.gb.hasRumble = true) ∧
    (emitted sysRumbleNoStrength (m5w storeExt 0x5ABC 0x0F sysRumbleNoStrength) =
        (if sysRumbleNoStrength.gb.rumbleStrength ≠ 0 ∧
            sysRumbleNoStrength.gb.rumbleInserted = true ∧
            bit3 0x0F ≠ sysRumbleNoStrength.gb.lastRumbleValue then
          [Event.doRumble (bit3 0x0F)] else []) ++ [Event.refreshRamBank (0x0F &&& 0x7)] ∧
     emitted sysRumbleNoStrength (m5w storeExt 0x5ABC 0x0F sysRumbleNoStrength) =
        [Event.refreshRamBank 7]) :=
  ⟨by decide,
   ((C12_ram_bank_of_rumble_cartridge storeExt 0x5ABC 0x0F sysRumbleNoStrength (by decide)).1
     (by decide)).1,
   by decide⟩

/-! ## C13, C14: the HuC3 RAM window -/

/-- C13: on HuC3, a write of `v` to an address `a` in `0xA000 - 0xBFFF` is exactly
`handleHuC3Command(v)`, with no SRAM write, when `HuC3Mode = 0xB`; it changes nothing
when `HuC3Mode` is `0xC`, `0xD` or `0xE`; and for every other mode it is the call
`writeSram(a & 0x1FFF, v)` when `ramEnabled` is true and `numRamBanks` is nonzero,
and changes nothing otherwise. -/
theorem C13_huc3_ram_window (E : Ext) (a v : Nat) (s : Sys)
    (ha : 0xA000 ≤ a ∧ a ≤ 0xBFFF) :
    (s.gb.HuC3Mode = 0xB →
      h3w E a v s = handleHuC3Command E v s ∧
      ∀ p x, Event.writeSram p x ∉ emitted s (h3w E a v s)) ∧
    (s.gb.HuC3Mode = 0xC ∨ s.gb.HuC3Mode = 0xD ∨ s.gb.HuC3Mode = 0xE → h3w E a v s = s) ∧
    (s.gb.HuC3Mode ≠ 0xB ∧ s.gb.HuC3Mode ≠ 0xC ∧ s.gb.HuC3Mode ≠ 0xD ∧
        s.gb.HuC3Mode ≠ 0xE →
      h3w E a v s =
        (if s.gb.ramEnabled = true ∧ s.gb.numRamBanks ≠ 0 then
          callWriteSram E (a &&& 0x1FFF) v s
        else s)) := by
  refine ⟨?_, ?_, ?_⟩
  · intro hm
    have h1 : h3w E a v s = handleHuC3Command E v s := by
      rcases window_ab a ha with h | h <;> simp [h3w, h, hm]
    exact ⟨h1, fun p x => h1 ▸ handleHuC3Command_no_sram E v p x s⟩
  · intro hm
    rcases hm with hm | hm | hm <;> rcases window_ab a ha with h | h <;> simp [h3w, h, hm]
  · rintro ⟨hb, hc, hd, he⟩
    have hdef : (match s.gb.HuC3Mode with
        | 0xb => handleHuC3Command E v s
        | 0xc | 0xd | 0xe => s
        | _ => sramWrite E a v s) = sramWrite E a v s := by
      split <;> first | (exfalso; omega) | rfl
    rcases window_ab a ha with h | h <;> simp only [h3w, h, hdef] <;> rfl

/-- Witness of C13: the command `0x10` written to `0xA000` in mode `0xB`. -/
theorem C13_huc3_ram_window_witness :
    ((0xA000 ≤ 0xA000 ∧ 0xA000 ≤ 0xBFFF) ∧ sysHuC3.gb.HuC3Mode = 0xB) ∧
    h3w storeExt 0xA000 0x10 sysHuC3 = handleHuC3Command storeExt 0x10 sysHuC3 :=
  ⟨by decide, ((C13_huc3_ram_window storeExt 0xA000 0x10 sysHuC3 (by decide)).1 (by decide)).1⟩

/-- C14: the HuC3 read `h3r` returns `HuC3Value` when `HuC3Mode = 0xC`, 1 when
`HuC3Mode` is `0xB` or `0xD`, and for every other mode the mapped memory byte
`memory[addr>>12][addr&0xFFF]` when `ramEnabled` is true and `0xFF` when it is
false.  The read is a function of the object only: it has no effect on it. -/
theorem C14_huc3_read (addr : Nat) (g : Gameboy) :
    (g.HuC3Mode = 0xC → h3r addr g = g.HuC3Value) ∧
    (g.HuC3Mode = 0xB ∨ g.HuC3Mode = 0xD → h3r addr g = 1) ∧
    (g.HuC3Mode ≠ 0xB ∧ g.HuC3Mode ≠ 0xC ∧ g.HuC3Mode ≠ 0xD →
      h3r addr g =
        (if g.ramEnabled = true then g.memory (addr >>> 12) (addr &&& 0xFFF) else 0xFF)) := by
  refine ⟨?_, ?_, ?_⟩
  · intro hm; simp [h3r, hm]
  · intro hm; rcases hm with hm | hm <;> simp [h3r, hm]
  · rintro ⟨hb, hc, hd⟩
    unfold h3r
    split <;> first | (exfalso; omega) | rfl

/-- Witness of C14: a read at `0xA000` in mode `0xB` returns 1. -/
theorem C14_huc3_read_witness :
    (sysHuC3.gb.HuC3Mode = 0xB ∨ sysHuC3.gb.HuC3Mode = 0xD) ∧ h3r 0xA000 sysHuC3.gb = 1 :=
  ⟨by decide, (C14_huc3_read 0xA000 sysHuC3.gb).2.1 (by decide)⟩

/-! ## C15: the 9-bit ROM bank of MBC5 and MBC7 -/

theorem window_2 (addr : Nat) (ha : 0x2000 ≤ addr ∧ addr ≤ 0x2FFF) : addr >>> 12 = 2 := by
  rw [Nat.shiftRight_eq_div_pow]; norm_num; omega

theorem window_3 (addr : Nat) (ha : 0x3000 ≤ addr ∧ addr ≤ 0x3FFF) : addr >>> 12 = 3 := by
  rw [Nat.shiftRight_eq_div_pow]; norm_num; omega

theorem bit8_after_low (r lo : Nat) (hlo : lo < 256) :
    ((r &&& 0x100) ||| lo) &&& 0x100 = r &&& 0x100 := by
  apply Nat.eq_of_testBit_eq
  intro i
  simp only [Nat.testBit_and, Nat.testBit_or, tb256]
  by_cases h : i = 8
  · simp [h, byte_testBit lo 8 hlo (by omega)]
  · simp [h]

theorem bit8_after_high (r hi : Nat) :
    ((r &&& 0xff) ||| ((hi &&& 1) <<< 8)) &&& 0x100 = (hi &&& 1) <<< 8 := by
  apply Nat.eq_of_testBit_eq
  intro i
  simp only [Nat.testBit_and, Nat.testBit_or, tb255, tb256, tb1, Nat.testBit_shiftLeft]
  by_cases h : i = 8
  · subst h; simp
  · by_cases h8 : 8 ≤ i
    · have : ¬ i - 8 = 0 := by omega
      simp [h, this]
    · simp [h, h8]

theorem high_bit_value (hi : Nat) : (hi &&& 1) <<< 8 = 256 * (hi &&& 1) := by
  rw [Nat.shiftLeft_eq, Nat.mul_comm]

theorem high_or_low (lo hi : Nat) (hlo : lo < 256) :
    ((hi &&& 1) <<< 8) ||| lo = lo + 256 * (hi &&& 1) := by
  rw [high_bit_value]
  have h := Nat.mul_add_lt_is_or (show lo < 2 ^ 8 from hlo) (hi &&& 1)
  have e : (2 : Nat) ^ 8 = 256 := by norm_num
  rw [e] at h
  omega

theorem bank_low_then_high (r lo hi : Nat) (hlo : lo < 256) :
    (((r &&& 0x100) ||| lo) &&& 0xff) ||| ((hi &&& 1) <<< 8) = lo + 256 * (hi &&& 1) := by
  rw [day_low_after_low r lo hlo, Nat.or_comm]
  exact high_or_low lo hi hlo

theorem bank_high_then_low (r lo hi : Nat) (hlo : lo < 256) :
    (((r &&& 0xff) ||| ((hi &&& 1) <<< 8)) &&& 0x100) ||| lo = lo + 256 * (hi &&& 1) := by
  rw [bit8_after_high]
  exact high_or_low lo hi hlo

theorem m5w_low_window (E : Ext) (addr v : Nat) (s : Sys)
    (ha : 0x2000 ≤ addr ∧ addr ≤ 0x2FFF) :
    m5w E addr v s = callRefreshRomBank E ((s.gb.romBank &&& 0x100) ||| v) s := by
  simp [m5w, window_2 addr ha]

theorem m5w_high_window (E : Ext) (addr v : Nat) (s : Sys)
    (ha : 0x3000 ≤ addr ∧ addr ≤ 0x3FFF) :
    m5w E addr v s =
      callRefreshRomBank E ((s.gb.romBank &&& 0xff) ||| ((v &&& 1) <<< 8)) s := by
  simp only [m5w, window_3 addr ha]

theorem m7w_low_window (E : Ext) (addr v : Nat) (s : Sys)
    (ha : 0x2000 ≤ addr ∧ addr ≤ 0x2FFF) :
    m7w E addr v s = callRefreshRomBank E ((s.gb.romBank &&& 0x100) ||| v) s := by
  simp [m7w, window_2 addr ha]

theorem m7w_high_window (E : Ext) (addr v : Nat) (s : Sys)
    (ha : 0x3000 ≤ addr ∧ addr ≤ 0x3FFF) :
    m7w E addr v s =
      callRefreshRomBank E ((s.gb.romBank &&& 0xff) ||| ((v &&& 1) <<< 8)) s := by
  simp only [m7w, window_3 addr ha]

theorem stored_bank (E : Ext) (hE : StoresRomBank E) (b : Nat) (s : Sys) :
    (callRefreshRomBank E b s).gb.romBank = b :=
  hE b s.gb

/-- C15: on MBC5 and MBC7, with a `refreshRomBank` that stores its argument as
`romBank`, for all bytes `lo` and `hi`, writing `lo` to an address in
`0x2000 - 0x2FFF` and `hi` to an address in `0x3000 - 0x3FFF`, in either order,
leaves `romBank = lo + 256 * (hi & 1)`.  The low write requests
`(romBank & 0x100) | lo`, which keeps bit 8 and has low byte `lo`; the high write
requests `(romBank & 0xFF) | (hi & 1) << 8`, which keeps the low byte; neither
coerces a value, 0 included. -/
theorem C15_nine_bit_rom_bank (E : Ext) (hE : StoresRomBank E)
    (a2 a3 lo hi : Nat) (s : Sys)
    (h2 : 0x2000 ≤ a2 ∧ a2 ≤ 0x2FFF) (h3 : 0x3000 ≤ a3 ∧ a3 ≤ 0x3FFF)
    (hlo : lo < 256) :
    ((m5w E a3 hi (m5w E a2 lo s)).gb.romBank = lo + 256 * (hi &&& 1) ∧
     (m5w E a2 lo (m5w E a3 hi s)).gb.romBank = lo + 256 * (hi &&& 1) ∧
     (m7w E a3 hi (m7w E a2 lo s)).gb.romBank = lo + 256 * (hi &&& 1) ∧
     (m7w E a2 lo (m7w E a3 hi s)).gb.romBank = lo + 256 * (hi &&& 1)) ∧
    (emitted s (m5w E a2 lo s) = [Event.refreshRomBank ((s.gb.romBank &&& 0x100) ||| lo)] ∧
     emitted s (m7w E a2 lo s) = [Event.refreshRomBank ((s.gb.romBank &&& 0x100) ||| lo)] ∧
     ((s.gb.romBank &&& 0x100) ||| lo) &&& 0xFF = lo ∧
     ((s.gb.romBank &&& 0x100) ||| lo) &&& 0x100 = s.gb.romBank &&& 0x100) ∧
    (emitted s (m5w E a3 hi s) =
       [Event.refreshRomBank ((s.gb.romBank &&& 0xFF) ||| ((hi &&& 1) <<< 8))] ∧
     emitted s (m7w E a3 hi s) =
       [Event.refreshRomBank ((s.gb.romBank &&& 0xFF) ||| ((hi &&& 1) <<< 8))] ∧
     ((s.gb.romBank &&& 0xFF) ||| ((hi &&& 1) <<< 8)) &&& 0xFF = s.gb.romBank &&& 0xFF ∧
     ((s.gb.romBank &&& 0xFF) ||| ((hi &&& 1) <<< 8)) &&& 0x100 = 256 * (hi &&& 1)) := by
  refine ⟨⟨?_, ?_, ?_, ?_⟩, ⟨?_, ?_, ?_, ?_⟩, ⟨?_, ?_, ?_, ?_⟩⟩
  · rw [m5w_high_window E a3 hi _ h3, stored_bank E hE, m5w_low_window E a2 lo s h2,
      stored_bank E hE]
    exact bank_low_then_high _ lo hi hlo
  · rw [m5w_low_window E a2 lo _ h2, stored_bank E hE, m5w_high_window E a3 hi s h3,
      stored_bank E hE]
    exact bank_high_then_low _ lo hi hlo
  · rw [m7w_high_window E a3 hi _ h3, stored_bank E hE, m7w_low_window E a2 lo s h2,
      stored_bank E hE]
    exact bank_low_then_high _ lo hi hlo
  · rw [m7w_low_window E a2 lo _ h2, stored_bank E hE, m7w_high_window E a3 hi s h3,
      stored_bank E hE]
    exact bank_high_then_low _ lo hi hlo
  · rw [m5w_low_window E a2 lo s h2]; exact emitted_callRefreshRomBank E _ s
  · rw [m7w_low_window E a2 lo s h2]; exact emitted_callRefreshRomBank E _ s
  · exact day_low_after_low _ lo hlo
  · exact bit8_after_low _ lo hlo
  · rw [m5w_high_window E a3 hi s h3]; exact emitted_callRefreshRomBank E _ s
  · rw [m7w_high_window E a3 hi s h3]; exact emitted_callRefreshRomBank E _ s
  · exact day_low_after_ctrl _ hi
  · rw [bit8_after_high, high_bit_value]

/-- Witness of C15: `lo = 0x34` to `0x2000` and `hi = 0x03` to `0x3000` on a
cartridge with bank 1 mapped. -/
theorem C15_nine_bit_rom_bank_witness :
    (StoresRomBank storeExt ∧ (0x2000 ≤ 0x2000 ∧ 0x2000 ≤ 0x2FFF) ∧
      (0x3000 ≤ 0x3000 ∧ 0x3000 ≤ 0x3FFF) ∧ 0x34 < 256) ∧
    ((m5w storeExt 0x3000 0x03 (m5w storeExt 0x2000 0x34 sys0)).gb.romBank =
        0x34 + 256 * (0x03 &&& 1) ∧
     (m5w storeExt 0x2000 0x34 (m5w storeExt 0x3000 0x03 sys0)).gb.romBank =
        0x34 + 256 * (0x03 &&& 1) ∧
     (m7w storeExt 0x3000 0x03 (m7w storeExt 0x2000 0x34 sys0)).gb.romBank =
        0x34 + 256 * (0x03 &&& 1) ∧
     (m7w storeExt 0x2000 0x34 (m7w storeExt 0x3000 0x03 sys0)).gb.romBank =
        0x34 + 256 * (0x03 &&& 1)) :=
  ⟨⟨fun _ _ => rfl, by decide⟩,
   (C15_nine_bit_rom_bank storeExt (fun _ _ => rfl) 0x2000 0x3000 0x34 0x03 sys0
     (by decide) (by decide) (by decide)).1⟩

/-! ## C16, C17: the MBC1 mode register and the rockmanMapper quirk -/

theorem m1w_mode_window (E : Ext) (addr v : Nat) (s : Sys)
    (ha : 0x6000 ≤ addr ∧ addr ≤ 0x7FFF) :
    m1w E addr v s = { s with gb := { s.gb with memoryModel := v &&& 1 } } := by
  rcases window_67 addr ha with h | h <;> simp only [m1w, h]

theorem m1w_upper_window (E : Ext) (addr w : Nat) (s : Sys)
    (ha : 0x4000 ≤ addr ∧ addr ≤ 0x5FFF) :
    m1w E addr w s =
      (if s.gb.memoryModel = 0 then
        callRefreshRomBank E
          (if (s.gb.romBank &&& 0x1F) ||| ((w &&& 3) <<< 5) ≠ 0 then
            (s.gb.romBank &&& 0x1F) ||| ((w &&& 3) <<< 5)
           else 1) s
       else callRefreshRamBank E (w &&& 3) s) := by
  rcases window_45 addr ha with h | h <;> simp only [m1w, h]

/-- C16: on MBC1, a write of `v` to `0x6000 - 0x7FFF` sets `memoryModel` to `v & 1`
and changes nothing else.  A following write of `w` to `0x4000 - 0x5FFF` then, when
`memoryModel` is 0, requests ROM bank `(romBank & 0x1F) | ((w & 3) << 5)` (1 if that
is 0) and no RAM bank, and when `memoryModel` is 1 requests RAM bank `w & 3` and no
ROM bank. -/
theorem C16_mbc1_mode_register (E : Ext) (a b v w : Nat) (s : Sys)
    (ha : 0x6000 ≤ a ∧ a ≤ 0x7FFF) (hb : 0x4000 ≤ b ∧ b ≤ 0x5FFF) :
    m1w E a v s = { s with gb := { s.gb with memoryModel := v &&& 1 } } ∧
    (v &&& 1 = 0 →
      emitted (m1w E a v s) (m1w E b w (m1w E a v s)) =
        [Event.refreshRomBank
          (if (s.gb.romBank &&& 0x1F) ||| ((w &&& 3) <<< 5) ≠ 0 then
            (s.gb.romBank &&& 0x1F) ||| ((w &&& 3) <<< 5)
           else 1)]) ∧
    (v &&& 1 = 1 →
      emitted (m1w E a v s) (m1w E b w (m1w E a v s)) = [Event.refreshRamBank (w &&& 3)]) := by
  have h1 := m1w_mode_window E a v s ha
  refine ⟨h1, ?_, ?_⟩
  · intro hv
    rw [m1w_upper_window E b w _ hb, h1]
    simp only [hv, if_true]
    exact emitted_callRefreshRomBank E _ _
  · intro hv
    rw [m1w_upper_window E b w _ hb, h1]
    simp only [hv, one_ne_zero, if_false]
    exact emitted_callRefreshRamBank E _ _

/-- Witness of C16: mode value 1 written to `0x6000`, then `w = 2` to `0x4000`. -/
theorem C16_mbc1_mode_register_witness :
    ((0x6000 ≤ 0x6000 ∧ 0x6000 ≤ 0x7FFF) ∧ (0x4000 ≤ 0x4000 ∧ 0x4000 ≤ 0x5FFF) ∧
      1 &&& 1 = 1) ∧
    emitted (m1w storeExt 0x6000 1 sys0) (m1w storeExt 0x4000 2 (m1w storeExt 0x6000 1 sys0)) =
      [Event.refreshRamBank (2 &&& 3)] :=
  ⟨by decide,
   (C16_mbc1_mode_register storeExt 0x6000 0x4000 1 2 sys0 (by decide) (by decide)).2.2
     (by decide)⟩

theorem m1w_rockman_window (E : Ext) (addr v : Nat) (s : Sys)
    (ha : 0x2000 ≤ addr ∧ addr ≤ 0x3FFF) (hq : s.gb.rockmanMapper = true) :
    m1w E addr v s = callRefreshRomBank E (rockmanBank v) s := by
  have hb : (if (if v &&& 0x1f > 0xf then (v &&& 0x1f) - 8 else v &&& 0x1f) ≠ 0 then
      (if v &&& 0x1f > 0xf then (v &&& 0x1f) - 8 else v &&& 0x1f) else 1) = rockmanBank v := by
    unfold rockmanBank
    split_ifs <;> omega
  rcases window_23 addr ha with h | h <;> simp only [m1w, h, hq, if_true, hb]

theorem rockmanBank_range (v : Nat) : 1 ≤ rockmanBank v ∧ rockmanBank v ≤ 23 := by
  have h31 : v &&& 0x1F ≤ 0x1F := Nat.and_le_right
  unfold rockmanBank
  split_ifs <;> omega

/-- C17: on MBC1 with the rockmanMapper quirk, a write of `v` to `0x2000 - 0x3FFF`
requests, with `b = v & 0x1F`, ROM bank `b - 8` when `b > 15`, `b` when
`1 <= b <= 15` and 1 when `b = 0` (`rockmanBank v`); the bank is a function of `v`
alone, so it does not depend on the previous `romBank`, and it lies in 1..23. -/
theorem C17_rockman_bank (E : Ext) (addr v : Nat) (s : Sys)
    (ha : 0x2000 ≤ addr ∧ addr ≤ 0x3FFF) (hq : s.gb.rockmanMapper = true) :
    emitted s (m1w E addr v s) = [Event.refreshRomBank (rockmanBank v)] ∧
    1 ≤ rockmanBank v ∧ rockmanBank v ≤ 23 := by
  refine ⟨?_, rockmanBank_range v⟩
  rw [m1w_rockman_window E addr v s ha hq]; exact emitted_callRefreshRomBank E _ s

/-- Witness of C17: `v = 0xFF` (so `b = 31`) written to `0x2000` requests bank 23. -/
theorem C17_rockman_bank_witness :
    ((0x2000 ≤ 0x2000 ∧ 0x2000 ≤ 0x3FFF) ∧ sysRockman.gb.rockmanMapper = true) ∧
    emitted sysRockman (m1w storeExt 0x2000 0xFF sysRockman) =
      [Event.refreshRomBank (rockmanBank 0xFF)] :=
  ⟨by decide, (C17_rockman_bank storeExt 0x2000 0xFF sysRockman (by decide) (by decide)).1⟩

/-! ## C18: the range of the HuC3 shift counter -/

/-- C18, as stated, fails: a read command (`0x10`) at `HuC3Shift = 24` is carried
out and leaves `HuC3Shift = 28`, above 24. -/
theorem C18_shift_reaches_28 :
    sysShift24.gb.HuC3Shift = 24 ∧
    (handleHuC3Command storeExt 0x10 sysShift24).gb.HuC3Shift = 28 := by
  decide

theorem huc3_shift_step (E : Ext) (hE : ShiftFrame E) (c : Nat) (s : Sys)
    (h : s.gb.HuC3Shift % 4 = 0 ∧ s.gb.HuC3Shift ≤ 28) :
    (handleHuC3Command E c s).gb.HuC3Shift % 4 = 0 ∧
    (handleHuC3Command E c s).gb.HuC3Shift ≤ 28 := by
  unfold handleHuC3Command
  split
  · split_ifs with h24
    · exact h
    · simp only []
      omega
  · have hL : ∀ g, (E.latchClock g).HuC3Shift = g.HuC3Shift := hE
    simp only [callLatchClock, hL]
    split <;> first | exact ⟨rfl, Nat.zero_le _⟩ | exact h
  · exact h
  · exact h
  · exact h

theorem huc3_shift_run (E : Ext) (hE : ShiftFrame E) (cs : List Nat) :
    ∀ s : Sys, s.gb.HuC3Shift % 4 = 0 ∧ s.gb.HuC3Shift ≤ 28 →
      (commands E cs s).gb.HuC3Shift % 4 = 0 ∧ (commands E cs s).gb.HuC3Shift ≤ 28 := by
  induction cs with
  | nil => intro s h; exact h
  | cons c cs ih =>
    intro s h
    exact ih (handleHuC3Command E c s) (huc3_shift_step E hE c s h)

/-- C18, amended: the HuC3 shift counter stays within 0..28 in steps of 4.  With a
`latchClock` that leaves `HuC3Shift` alone, starting from a multiple of 4 that is at
most 28 (in particular from any of 0, 4, ..., 24), after any sequence of
`handleHuC3Command` calls with arbitrary command bytes `HuC3Shift` is still a
multiple of 4 and at most 28; a read command at a shift of at most 24 adds 4, so 28
is reached from 24. -/
theorem C18_shift_range (E : Ext) (hE : ShiftFrame E) (cs : List Nat) (c : Nat) (s : Sys)
    (h : s.gb.HuC3Shift % 4 = 0 ∧ s.gb.HuC3Shift ≤ 28) :
    ((commands E cs s).gb.HuC3Shift % 4 = 0 ∧ (commands E cs s).gb.HuC3Shift ≤ 28) ∧
    (0x10 ≤ c ∧ c ≤ 0x1F → s.gb.HuC3Shift ≤ 24 →
      (handleHuC3Command E c s).gb.HuC3Shift = s.gb.HuC3Shift + 4) := by
  refine ⟨huc3_shift_run E hE cs s h, ?_⟩
  intro hc h24
  rw [huc3_read E c s hc h24]

/-- Witness of C18 (amended): seven read commands, a latch with reset and one more
read, from `HuC3Shift = 0`. -/
theorem C18_shift_range_witness :
    (ShiftFrame storeExt ∧ (sysHuC3.gb.HuC3Shift % 4 = 0 ∧ sysHuC3.gb.HuC3Shift ≤ 28)) ∧
    ((commands storeExt [0x10, 0x10, 0x10, 0x10, 0x10, 0x10, 0x10, 0x10, 0x40, 0x10]
        sysHuC3).gb.HuC3Shift % 4 = 0 ∧
     (commands storeExt [0x10, 0x10, 0x10, 0x10, 0x10, 0x10, 0x10, 0x10, 0x40, 0x10]
        sysHuC3).gb.HuC3Shift ≤ 28) :=
  ⟨⟨fun _ => rfl, by decide⟩,
   (C18_shift_range storeExt (fun _ => rfl)
     [0x10, 0x10, 0x10, 0x10, 0x10, 0x10, 0x10, 0x10, 0x40, 0x10] 0x10 sysHuC3
     (by decide)).1⟩

/-! ## C19: the day counter and the control byte agree -/

theorem day_lt_after_low (d v : Nat) (hv : v < 256) : (d &&& 0x100) ||| v < 512 := by
  have h1 : d &&& 0x100 ≤ 0x100 := Nat.and_le_right
  exact Nat.or_lt_two_pow (n := 9) (by omega) (by omega)

theorem day_lt_after_ctrl (d v : Nat) : (d &&& 0xFF) ||| ((v &&& 1) <<< 8) < 512 := by
  have h1 : d &&& 0xFF ≤ 0xFF := Nat.and_le_right
  have h2 : v &&& 1 ≤ 1 := Nat.and_le_right
  rw [high_bit_value]
  exact Nat.or_lt_two_pow (n := 9) (by omega) (by omega)

theorem writeClockStruct_inv (t : Sys) (h : ClockInv t.gb) : ClockInv (writeClockStruct t).gb := by
  unfold ClockInv
  rw [(writeClockStruct_frame t).2.2]
  exact h

theorem rtcWrite_inv (E : Ext) (hE : ClockFrame E) (addr v : Nat) (s : Sys) (hv : v < 256)
    (h : ClockInv s.gb) : ClockInv (rtcWrite E addr v s).gb := by
  obtain ⟨hd, hb⟩ := h
  unfold rtcWrite
  split
  · dsimp only
    split_ifs
    · exact writeClockStruct_inv _ ⟨hd, hb⟩
    · exact ⟨hd, hb⟩
  · dsimp only
    split_ifs
    · exact writeClockStruct_inv _ ⟨hd, hb⟩
    · exact ⟨hd, hb⟩
  · dsimp only
    split_ifs
    · exact writeClockStruct_inv _ ⟨hd, hb⟩
    · exact ⟨hd, hb⟩
  · dsimp only
    split_ifs
    · exact writeClockStruct_inv _
        ⟨day_lt_after_low _ v hv, (day_high_after_low _ v hv).trans hb⟩
    · exact ⟨hd, hb⟩
  · dsimp only
    split_ifs
    · exact writeClockStruct_inv _ ⟨day_lt_after_ctrl _ v, day_high_after_ctrl _ v⟩
    · exact ⟨hd, hb⟩
  · dsimp only
    split_ifs
    · show ClockInv (E.writeSram _ _ s.gb)
      unfold ClockInv
      rw [hE.2.2]
      exact ⟨hd, hb⟩
    · exact ⟨hd, hb⟩

theorem m3w_inv (E : Ext) (hE : ClockFrame E) (addr v : Nat) (s : Sys) (hv : v < 256)
    (h : ClockInv s.gb) :
    (Event.latchClock ∉ emitted s (m3w E addr v s) → ClockInv (m3w E addr v s).gb) ∧
    ((∀ g, ClockInv g → ClockInv (E.latchClock g)) → ClockInv (m3w E addr v s).gb) := by
  have hrom : ∀ b, ClockInv (callRefreshRomBank E b s).gb := by
    intro b
    show ClockInv (E.refreshRomBank b s.gb)
    unfold ClockInv
    rw [hE.1]
    exact h
  have hram : ∀ b, ClockInv (callRefreshRamBank E b s).gb := by
    intro b
    show ClockInv (E.refreshRamBank b s.gb)
    unfold ClockInv
    rw [hE.2.1]
    exact h
  unfold m3w
  split
  all_goals
    first
      | exact ⟨fun _ => h, fun _ => h⟩
      | exact ⟨fun _ => hrom _, fun _ => hrom _⟩
      | (split_ifs <;> first
          | exact ⟨fun _ => h, fun _ => h⟩
          | exact ⟨fun _ => hram _, fun _ => hram _⟩
          | exact ⟨fun _ => rtcWrite_inv E hE _ v s hv h, fun _ => rtcWrite_inv E hE _ v s hv h⟩
          | exact ⟨fun hn => absurd (by simp) hn, fun hl => hl _ h⟩)

/-- C19: on MBC3, with external `refreshRomBank`, `refreshRamBank` and `writeSram`
that leave the clock structure alone, the predicate "the day counter `d` is below 512
and bit 8 of `d` equals bit 0 of `ctrl`" is preserved by every write `m3w` of a byte
(any address, any `ramEnabled` and `currentRamBank`) that does not call `latchClock`,
and by every write when `latchClock` preserves it too; under the predicate a write of
`v` to the control register leaves bit 8 of `d` equal to `v & 1`. -/
theorem C19_day_high_matches_ctrl (E : Ext) (hE : ClockFrame E) (addr v : Nat) (s : Sys)
    (hv : v < 256) (h : ClockInv s.gb) :
    (Event.latchClock ∉ emitted s (m3w E addr v s) → ClockInv (m3w E addr v s).gb) ∧
    ((∀ g, ClockInv g → ClockInv (E.latchClock g)) → ClockInv (m3w E addr v s).gb) ∧
    (0xA000 ≤ addr ∧ addr ≤ 0xBFFF → s.gb.ramEnabled = true → s.gb.currentRamBank = 0xC →
      dayHigh (m3w E addr v s).gb.gbClock.mbc3.d = v &&& 1) := by
  obtain ⟨h1, h2⟩ := m3w_inv E hE addr v s hv h
  refine ⟨h1, h2, ?_⟩
  intro ha hr hc
  rw [m3w_ram_window E addr v s ha hr]
  exact (rtcWrite_ctrl E addr v s hc).2.1 (Or.inr h.2)

/-- Witness of C19: a write of 1 to the control register, with `ctrl = 0` and day
counter `0x0FF`. -/
theorem C19_day_high_matches_ctrl_witness :
    (ClockFrame storeExt ∧ 1 < 256 ∧ ClockInv (sysRtc 0xC 0xFF).gb ∧
      (0xA000 ≤ 0xA000 ∧ 0xA000 ≤ 0xBFFF) ∧ (sysRtc 0xC 0xFF).gb.ramEnabled = true ∧
      (sysRtc 0xC 0xFF).gb.currentRamBank = 0xC) ∧
    dayHigh (m3w storeExt 0xA000 1 (sysRtc 0xC 0xFF)).gb.gbClock.mbc3.d = 1 &&& 1 :=
  ⟨⟨⟨fun _ _ => rfl, fun _ _ => rfl, fun _ _ _ => rfl⟩, by decide, ⟨by decide, by decide⟩,
     by decide, by decide, by decide⟩,
   (C19_day_high_matches_ctrl storeExt ⟨fun _ _ => rfl, fun _ _ => rfl, fun _ _ _ => rfl⟩
     0xA000 1 (sysRtc 0xC 0xFF) (by decide) ⟨by decide, by decide⟩).2.2
     (by decide) (by decide) (by decide)⟩

/-! ## C20: RAM enable and the HuC3 mode -/

theorem handleHuC3Command_mode (E : Ext) (hE : HuC3Frame E) (c : Nat) (s : Sys) :
    (handleHuC3Command E c s).gb.ramEnabled = s.gb.ramEnabled ∧
    (handleHuC3Command E c s).gb.HuC3Mode = s.gb.HuC3Mode := by
  unfold handleHuC3Command
  split
  · split_ifs
    · exact ⟨rfl, rfl⟩
    · exact ⟨rfl, rfl⟩
  · exact hE.2.2.2 _
  · exact ⟨rfl, rfl⟩
  · exact ⟨rfl, rfl⟩
  · exact ⟨rfl, rfl⟩

theorem sramWrite_mode (E : Ext) (hE : HuC3Frame E) (addr v : Nat) (s : Sys) :
    (sramWrite E addr v s).gb.ramEnabled = s.gb.ramEnabled ∧
    (sramWrite E addr v s).gb.HuC3Mode = s.gb.HuC3Mode := by
  unfold sramWrite
  split_ifs
  · exact hE.2.2.1 _ _ _
  · exact ⟨rfl, rfl⟩

theorem h3w_mode (E : Ext) (hE : HuC3Frame E) (addr v : Nat) (s : Sys)
    (ha : 0x2000 ≤ addr) :
    (h3w E addr v s).gb.ramEnabled = s.gb.ramEnabled ∧
    (h3w E addr v s).gb.HuC3Mode = s.gb.HuC3Mode := by
  have hsel : addr >>> 12 ≠ 0 ∧ addr >>> 12 ≠ 1 := by
    rw [Nat.shiftRight_eq_div_pow]; norm_num; omega
  unfold h3w
  split
  · exact absurd (by assumption) hsel.1
  · exact absurd (by assumption) hsel.2
  · exact hE.1 _ _
  · exact hE.1 _ _
  · exact hE.2.1 _ _
  · exact hE.2.1 _ _
  · exact ⟨rfl, rfl⟩
  · exact ⟨rfl, rfl⟩
  · split <;> first
      | exact ⟨rfl, rfl⟩
      | exact handleHuC3Command_mode E hE _ s
      | exact sramWrite_mode E hE _ _ s
  · split <;> first
      | exact ⟨rfl, rfl⟩
      | exact handleHuC3Command_mode E hE _ s
      | exact sramWrite_mode E hE _ _ s
  · exact ⟨rfl, rfl⟩

theorem huc3Inv_of_same (g t : Gameboy) (h : HuC3Inv g)
    (hs : t.ramEnabled = g.ramEnabled ∧ t.HuC3Mode = g.HuC3Mode) : HuC3Inv t := by
  unfold HuC3Inv at *
  rw [hs.1, hs.2]
  exact h

/-- C20: on HuC3, with external methods that leave `ramEnabled` and `HuC3Mode` alone,
the predicate "`ramEnabled` is true if and only if `(HuC3Mode & 0xF) = 0xA`" holds
after every write to `0x0000 - 0x1FFF` and is preserved by every other `h3w` write
and by every `handleHuC3Command` call; under it `ramEnabled` is false whenever
`HuC3Mode` is `0xB`, `0xC`, `0xD` or `0xE`, and `h3r` in mode `0xE` returns `0xFF`. -/
theorem C20_huc3_ram_enable_follows_mode (E : Ext) (hE : HuC3Frame E)
    (addr v c : Nat) (s : Sys) :
    (addr ≤ 0x1FFF → HuC3Inv (h3w E addr v s).gb) ∧
    (0x2000 ≤ addr → HuC3Inv s.gb → HuC3Inv (h3w E addr v s).gb) ∧
    (HuC3Inv s.gb → HuC3Inv (handleHuC3Command E c s).gb) ∧
    (HuC3Inv s.gb →
      s.gb.HuC3Mode = 0xB ∨ s.gb.HuC3Mode = 0xC ∨ s.gb.HuC3Mode = 0xD ∨ s.gb.HuC3Mode = 0xE →
      s.gb.ramEnabled = false) ∧
    (HuC3Inv s.gb → s.gb.HuC3Mode = 0xE → h3r addr s.gb = 0xFF) := by
  have hoff : HuC3Inv s.gb →
      s.gb.HuC3Mode = 0xB ∨ s.gb.HuC3Mode = 0xC ∨ s.gb.HuC3Mode = 0xD ∨ s.gb.HuC3Mode = 0xE →
      s.gb.ramEnabled = false := by
    intro hi hm
    cases hr : s.gb.ramEnabled with
    | false => rfl
    | true =>
      have h := hi.mp hr
      rcases hm with hm | hm | hm | hm <;> rw [hm] at h <;> exact absurd h (by decide)
  refine ⟨?_, ?_, ?_, hoff, ?_⟩
  · intro ha
    rcases window_01 addr ha with h | h <;> simp [h3w, h, setRamEnabled, HuC3Inv]
  · intro ha hi
    exact huc3Inv_of_same _ _ hi (h3w_mode E hE addr v s ha)
  · intro hi
    exact huc3Inv_of_same _ _ hi (handleHuC3Command_mode E hE c s)
  · intro hi hm
    have hr := hoff hi (Or.inr (Or.inr (Or.inr hm)))
    simp [h3r, hm, hr]

/-- Witness of C20: the write of `0x0E` to `0x0000` establishes the predicate. -/
theorem C20_huc3_ram_enable_follows_mode_witness :
    (HuC3Frame storeExt ∧ 0x0000 ≤ 0x1FFF) ∧ HuC3Inv (h3w storeExt 0x0000 0x0E sys0).gb :=
  ⟨⟨⟨fun _ _ => ⟨rfl, rfl⟩, fun _ _ => ⟨rfl, rfl⟩, fun _ _ _ => ⟨rfl, rfl⟩,
      fun _ => ⟨rfl, rfl⟩⟩, by decide⟩,
   (C20_huc3_ram_enable_follows_mode storeExt
     ⟨fun _ _ => ⟨rfl, rfl⟩, fun _ _ => ⟨rfl, rfl⟩, fun _ _ _ => ⟨rfl, rfl⟩,
      fun _ => ⟨rfl, rfl⟩⟩ 0x0000 0x0E 0 sys0).1 (by decide)⟩

end GameYob
